import Mathlib

/-!
A verification development for the relay-automation-tool repository.

We give a shallow embedding of the bridge-bot core:
  * `scripts/bridge.js` — the cycle orchestrator `executeBridgeCycle`, the
    token-selection policy `findBestTokenToBridge` / `findTokenBalanceOnChains`,
    the gas-price guard `checkGasPrice`, the 1inch wrapper `executeSwap`,
    and the gas rescue `bridgeETHForGas`;
  * `src/services/bridgeService.js` — the `BridgeService` class: the balance
    reader `checkTokenBalancesAcrossChains`, the service-level
    `findBestTokenToBridge`, `findDestinationChain`, and
    `executeBridgeTransaction`;
  * `src/utils/ethereum.js` — `approveToken`.

Machine integers (wei amounts, chain ids, decimals) are modelled as `Nat`
(balances are unsigned 256-bit quantities far below the overflow range used
here, and no wrap-around arithmetic occurs in the embedded paths).
External effects (RPC reads, REST calls, transaction submission) are oracle
inputs supplied in environment records; each embedded operation returns its
result together with the list of on-chain write transactions it submitted.
-/

namespace RelayBot

/-! ## Constants (scripts/bridge.js lines 20-49, bridgeService.js constructor) -/

/-- `MIN_BRIDGE_AMOUNTS` from scripts/bridge.js lines 21-26, in raw units:
WETH 0.001e18, USDC 1e6, ETH 0.001e18, default 0.001e18. -/
def MIN_BRIDGE_AMOUNTS (symbol : String) : Nat :=
  if symbol = "WETH" then 1000000000000000
  else if symbol = "USDC" then 1000000
  else if symbol = "ETH" then 1000000000000000
  else 1000000000000000

/-- `GAS_BRIDGE_AMOUNT` (bridge.js line 29): 0.001 ETH in wei. -/
def GAS_BRIDGE_AMOUNT : Nat := 1000000000000000

/-- `TARGET_TOKENS` (bridge.js lines 32-35): JS object lookup, `undefined`
for keys other than WETH/USDC is modelled as `none`. -/
def TARGET_TOKENS (symbol : String) : Option String :=
  if symbol = "WETH" then some "USDC"
  else if symbol = "USDC" then some "WETH"
  else none

/-- `MAX_GAS_PRICE_GWEI = 0.1` (bridge.js line 49), expressed in wei.
The JS test is `parseFloat(formatUnits(gasPrice, 'gwei')) <= 0.1`; for
integer wei values this holds exactly when the price is at most 1e8 wei
(the double nearest to 0.1 exceeds the real 0.1, and the next representable
candidate 100000001 wei formats to a double strictly above it). -/
def MAX_GAS_PRICE_WEI : Nat := 100000000

/-- The zero address produced by the 1inch fallback chain
(bridge.js line 241). -/
def zeroAddress : String := "0x0000000000000000000000000000000000000000"

/-- The native-ETH placeholder used by the bridge approval guard
(bridge.js line 654). -/
def nativeEthPlaceholder : String := "0xEeeeeEeeeEeEeeEeEeEeeEEEeeeeEeeeeeeeEEeE"

/-- `this.chainIds` of `BridgeService` (bridgeService.js constructor), in
object-insertion order used by `Object.entries`. -/
def chainIdsEntries : List (String × Nat) :=
  [("base", 8453), ("arbitrum", 42161), ("optimism", 10), ("linea", 59144)]

/-- The supported chain-id values, in entry order. -/
def chainIdsList : List Nat := chainIdsEntries.map (·.2)

/-- `this.tokenAddresses` of `BridgeService`: tracked token symbol/address
pairs per chain, in object-insertion order (USDC first, then WETH). -/
def tokenAddressEntries (chainId : Nat) : List (String × String) :=
  if chainId = 8453 then
    [("USDC", "0x833589fCD6eDb6E08f4c7C32D4f71b54bdA02913"),
     ("WETH", "0x4200000000000000000000000000000000000006")]
  else if chainId = 42161 then
    [("USDC", "0xaf88d065e77c8cC2239327C5EDb3A432268e5831"),
     ("WETH", "0x82aF49447D8a07e3bd95BD0d56f35241523fBab1")]
  else if chainId = 10 then
    [("USDC", "0x0b2C639c533813f4Aa9D7837CAf62653d097Ff85"),
     ("WETH", "0x4200000000000000000000000000000000000006")]
  else if chainId = 59144 then
    [("USDC", "0x176211869cA2b568f2A7D4EE941E073a821EE1ff"),
     ("WETH", "0xe5D7C2a44FfDDf6b295A15c148167daaAf5Cf34f")]
  else []

/-- `this.tokenAddresses[chainId][symbol]`: JS property lookup, `undefined`
modelled as `none`. -/
def tokenAddressOf (chainId : Nat) (symbol : String) : Option String :=
  (tokenAddressEntries chainId).lookup symbol

/-- `Object.entries(this.chainIds).find(([name, id]) => id === chainId)[0]`:
reverse lookup of a chain's name; a missing id makes the JS throw a
TypeError (indexing `undefined`), modelled as `none`. -/
def chainNameOf (chainId : Nat) : Option String :=
  ((chainIdsEntries.find? (·.2 = chainId)).map (·.1))

/-! ## Gas-price guard (bridge.js lines 129-154) -/

/-- Result of `checkGasPrice`; the human-formatted gwei string is only
logged and is omitted. -/
structure GasCheckResult where
  isAcceptable : Bool
  gasPrice : Nat
  deriving Repr, DecidableEq

/-- `checkGasPrice(provider)`: the provider query result is the oracle input
(`none` models `provider.getGasPrice()` throwing). On failure the catch
block returns `isAcceptable: false` with a zero gas price (lines 146-153);
on success acceptability is the 0.1 gwei ceiling comparison (line 133). -/
def checkGasPrice : Option Nat → GasCheckResult
  | some p => { isAcceptable := decide (p ≤ MAX_GAS_PRICE_WEI), gasPrice := p }
  | none => { isAcceptable := false, gasPrice := 0 }

/-! ## Balance snapshots -/

/-- A successful `TokenBalance` entry as built by
`checkTokenBalancesAcrossChains` (bridgeService.js lines 262-267). -/
structure TokenBalance where
  address : String
  balance : Nat
  formatted : String
  decimals : Nat
  deriving Repr, DecidableEq

/-- `balances[chainId][symbol]` is either a balance record or an
`{ error }` record (bridgeService.js line 272). -/
inductive TokenEntry where
  | ok (tb : TokenBalance)
  | err (msg : String)
  deriving Repr, DecidableEq

/-- One chain's entry in the snapshot: the chain name plus the tracked-token
entries in iteration order. -/
structure ChainData where
  chainName : String
  tokens : List (String × TokenEntry)
  deriving Repr, DecidableEq

/-- JS property access `chainData[symbol]`. -/
def ChainData.get (cd : ChainData) (symbol : String) : Option TokenEntry :=
  cd.tokens.lookup symbol

/-- An `AccountBalanceSnapshot`: chain id keyed entries in iteration order.
(JS objects with integer-like keys iterate in ascending numeric order; no
theorem below depends on the order.) -/
abbrev Snapshot := List (Nat × ChainData)

/-- `ethers.utils.formatUnits`: decimal string of `bal / 10^dec`, trailing
zeros of the fraction removed but at least one fractional digit kept. -/
def formatUnits (bal dec : Nat) : String :=
  let whole := bal / 10 ^ dec
  let frac := bal % 10 ^ dec
  let fracDigits := (Nat.toDigits 10 frac)
  let padded := List.replicate (dec - fracDigits.length) '0' ++ fracDigits
  let trimmed := (padded.reverse.dropWhile (· = '0')).reverse
  let fracStr := if trimmed.isEmpty then "0" else String.mk trimmed
  toString whole ++ "." ++ fracStr

/-- The per-token read oracle for `checkTokenBalancesAcrossChains`: given a
chain id and token symbol, either `(decimals, balance)` from the two
contract calls or the error message of whichever call threw. -/
def ReadOracle := Nat → String → Except String (Nat × Nat)

/-- The entry stored for one token read (bridgeService.js lines 251-273):
a balance record on success, an `{ error }` record when the read threw. -/
def mkTokenEntry (addr : String) : Except String (Nat × Nat) → TokenEntry
  | .ok dv => .ok { address := addr, balance := dv.2,
                    formatted := formatUnits dv.2 dv.1, decimals := dv.1 }
  | .error e => .err e

/-- `BridgeService.checkTokenBalancesAcrossChains` (bridgeService.js lines
236-282): for every chain in `this.chainIds` build a `{ chainName }` record,
then for every tracked token read decimals and balance inside a per-token
try/catch, storing an `{ error }` entry on failure (lines 250-274). -/
def checkTokenBalancesAcrossChains (oracle : ReadOracle) : Snapshot :=
  chainIdsEntries.map (fun ce =>
    (ce.2,
      { chainName := ce.1
        tokens := (tokenAddressEntries ce.2).map (fun ta =>
          (ta.1, mkTokenEntry ta.2 (oracle ce.2 ta.1))) }))

/-- The token entry a snapshot holds for a given chain and symbol. -/
def snapshotEntry (oracle : ReadOracle) (c : Nat) (s : String) : Option TokenEntry :=
  ((checkTokenBalancesAcrossChains oracle).lookup c).bind (fun cd => cd.get s)

/-! ## Token selection (bridge.js lines 311-388) -/

/-- The candidate produced by `findTokenBalanceOnChains`
(bridge.js lines 376-384). -/
structure BaseCandidate where
  symbol : String
  sourceChainId : Nat
  chainName : String
  tokenAddress : String
  balance : Nat
  formatted : String
  decimals : Nat
  deriving Repr, DecidableEq

/-- The candidate returned by the script-level `findBestTokenToBridge`
(bridge.js lines 320-334): the base candidate plus the `targetSymbol`
added by the object spread. -/
structure Candidate extends BaseCandidate where
  targetSymbol : String
  deriving Repr, DecidableEq

/-- State of the best-so-far accumulator in `findTokenBalanceOnChains`
(bridge.js lines 346-350). -/
structure BestAcc where
  balance : Nat
  chainId : Nat
  formatted : String
  decimals : Nat
  tokenAddress : String
  deriving Repr, DecidableEq

/-- Fields copied into the best-so-far accumulator when an entry wins
(bridge.js lines 364-370). -/
def mkBest (chainId : Nat) (tb : TokenBalance) : BestAcc :=
  { balance := tb.balance, chainId := chainId, formatted := tb.formatted,
    decimals := tb.decimals, tokenAddress := tb.address }

/-- The loop body of `findTokenBalanceOnChains` (bridge.js lines 352-372):
an entry participates when it is present, has a `balance` field and no
`error` field (line 353); it is skipped below the per-symbol minimum
(line 358) and replaces the accumulator only when strictly larger
(line 364). -/
def selectionStep (symbol : String) (acc : Option BestAcc) (entry : Nat × ChainData) :
    Option BestAcc :=
  match entry.2.get symbol with
  | some (.ok tb) =>
    if tb.balance < MIN_BRIDGE_AMOUNTS symbol then acc
    else
      match acc with
      | none => some (mkBest entry.1 tb)
      | some b =>
        if b.balance < tb.balance then some (mkBest entry.1 tb) else acc
  | _ => acc

/-- `findTokenBalanceOnChains(balances, symbol)` (bridge.js lines 345-388).
When a best entry was found, the chain-name reverse lookup on line 375
indexes into a `find` result; an unsupported chain id would make the JS
throw a TypeError, modelled as `.error`. -/
def findTokenBalanceOnChains (balances : Snapshot) (symbol : String) :
    Except String (Option BaseCandidate) :=
  match balances.foldl (selectionStep symbol) none with
  | none => .ok none
  | some b =>
    match chainNameOf b.chainId with
    | none => .error "TypeError: chain id not in bridgeService.chainIds"
    | some name =>
      .ok (some { symbol := symbol, sourceChainId := b.chainId,
                  chainName := name, tokenAddress := b.tokenAddress,
                  balance := b.balance, formatted := b.formatted,
                  decimals := b.decimals })

/-- The script-level `findBestTokenToBridge(balances)` (bridge.js lines
311-342): WETH first with target symbol `TARGET_TOKENS.WETH = USDC`, then
USDC with target `WETH`; when neither symbol yields a candidate the
function throws (line 337) — the catch block rethrows (line 340). -/
def findBestTokenToBridge (balances : Snapshot) : Except String Candidate := do
  let w ← findTokenBalanceOnChains balances "WETH"
  match w with
  | some c => .ok { toBaseCandidate := c, targetSymbol := "USDC" }
  | none =>
    let u ← findTokenBalanceOnChains balances "USDC"
    match u with
    | some c => .ok { toBaseCandidate := c, targetSymbol := "WETH" }
    | none => .error "No available token balance found on any chain"

/-! ## Service-level selection (bridgeService.js lines 289-348) -/

/-- The candidate returned by `BridgeService.findBestTokenToBridge`
(bridgeService.js lines 337-343); note it carries no target symbol. -/
structure BsCandidate where
  symbol : String
  sourceChainId : Nat
  chainName : String
  tokenAddress : String
  balance : Nat
  deriving Repr, DecidableEq

/-- One pass of the service's selection loops (bridgeService.js lines
299-311 and 315-328): entries with a balance record and no error replace
the accumulator when strictly greater than the running balance (which
starts at 0, so zero balances are never selected). -/
def bsScan (symbol : String) (balances : Snapshot)
    (start : Option (Nat × String) × Nat) : Option (Nat × String) × Nat :=
  balances.foldl (fun acc entry =>
    match entry.2.get symbol with
    | some (.ok tb) =>
      if acc.2 < tb.balance then (some (entry.1, tb.address), tb.balance) else acc
    | _ => acc) start

/-- `BridgeService.findBestTokenToBridge` (bridgeService.js lines 289-348):
USDC is scanned first with no minimum threshold; WETH is scanned only when
no USDC balance was found; with no token at all the function throws. -/
def bsFindBestTokenToBridge (balances : Snapshot) : Except String BsCandidate :=
  let u := bsScan "USDC" balances (none, 0)
  let best :=
    match u.1 with
    | some info => some ("USDC", info, u.2)
    | none =>
      let w := bsScan "WETH" balances (none, u.2)
      match w.1 with
      | some info => some ("WETH", info, w.2)
      | none => none
  match best with
  | none => .error "No available token balance found on any chain"
  | some b =>
    match chainNameOf b.2.1.1 with
    | none => .error "TypeError: chain id not in this.chainIds"
    | some name =>
      .ok { symbol := b.1, sourceChainId := b.2.1.1, chainName := name,
            tokenAddress := b.2.1.2, balance := b.2.2 }

/-! ## Destination chain (bridgeService.js lines 355-374) -/

/-- `BridgeService.findDestinationChain(sourceChainId)`: filter the source
out of the supported chain ids and pick a uniformly random element;
`Math.floor(Math.random() * n)` is modelled by an arbitrary natural taken
modulo the list length. The filtered list is never empty (the four ids are
distinct), so the JS indexing never yields `undefined`; `none` can only
arise in the model and is proven impossible. -/
def findDestinationChain (rand : Nat) (sourceChainId : Nat) : Option Nat :=
  let avail := chainIdsList.filter (· ≠ sourceChainId)
  avail.get? (rand % avail.length)

/-! ## ERC-20 approval (ethereum.js lines 31-74) -/

/-- Oracle for one `approveToken` call: either the `allowance()` read threw,
or it returned a value and — when a transaction was needed — `submit` tells
whether the `approve()` transaction was broadcast (`none` = the call threw
before broadcasting) and whether its confirmation wait succeeded. -/
inductive ApproveOracle where
  | readFail (msg : String)
  | read (allowance : Nat) (submit : Option Bool)
  deriving Repr, DecidableEq

/-- `approveToken(wallet, tokenAddress, spenderAddress)` (ethereum.js lines
31-74): a strictly positive current allowance short-circuits to success with
no transaction (lines 47-50); otherwise a max-approval transaction is sent
and awaited; any throw is caught and reported as `false` (lines 70-73).
Returns `(success, transactionSubmitted)`. -/
def approveToken : ApproveOracle → Bool × Bool
  | .readFail _ => (false, false)
  | .read a submit =>
    if 0 < a then (true, false)
    else
      match submit with
      | none => (false, false)
      | some waitOk => (waitOk, true)

/-! ## 1inch swap (bridge.js lines 61-122 and 163-256) -/

/-- Token-info object of a 1inch response (`toToken` / `dstToken`); every
field may be absent. -/
structure SwapTokenInfo where
  address : Option String
  symbol : Option String
  decimals : Option Nat
  deriving Repr, DecidableEq

/-- The `tx` object of a 1inch response (the JS `to` field is named
`toAddr` here because `to` is reserved). -/
structure SwapTx where
  toAddr : Option String
  data : Option String
  value : Option Nat
  deriving Repr, DecidableEq

/-- A raw 1inch `/swap` response body; absent JS fields are `none`. -/
structure RawSwapQuote where
  tx : Option SwapTx
  toAmount : Option Nat
  dstAmount : Option Nat
  amount : Option Nat
  toToken : Option SwapTokenInfo
  dstToken : Option SwapTokenInfo
  toTokenAddress : Option String
  dst : Option String
  deriving Repr, DecidableEq

/-- The field normalization `getQuote` performs on a successful response
(bridge.js lines 89-110): `dstAmount` is copied over `toAmount` and
`dstToken` over `toToken` whenever present. -/
def normalizeQuote (r : RawSwapQuote) : RawSwapQuote :=
  let r1 := if r.dstAmount.isSome then { r with toAmount := r.dstAmount } else r
  if r1.dstToken.isSome then { r1 with toToken := r1.dstToken } else r1

/-- The standardized output-token record produced by `executeSwap`
(bridge.js lines 240-244). -/
structure SwapOutToken where
  address : String
  symbol : String
  decimals : Nat
  deriving Repr, DecidableEq

/-- Result of `executeSwap`: cancelled at the gas gate
(`{success: false, error: "high_gas_price"}`, line 171), failed inside the
catch block (line 254), or succeeded with the standardized amount and
token (lines 246-251). -/
inductive SwapOutcome where
  | highGas
  | failed
  | ok (toAmount : Nat) (toToken : SwapOutToken)
  deriving Repr, DecidableEq

/-- Oracle for one `executeSwap` call: the fresh gas-price query (line 168),
the gas-estimate call used when no gas limit is supplied (line 202), and
the swap transaction submission (`none` = `sendTransaction` threw before
broadcasting, `some waitOk` = broadcast with the given confirmation
outcome). -/
structure SwapEnv where
  gasQ : Option Nat
  estimate : Except String Nat
  send : Option Bool
  deriving Repr

/-- `executeSwap(wallet, quoteData, gasLimit)` (bridge.js lines 163-256).
Returns the outcome together with whether the swap transaction was
broadcast. All throws inside the function body are caught by its own
catch block and reported as `failed`. -/
def executeSwap (env : SwapEnv) (quoteData : RawSwapQuote) (gasLimit : Option Nat) :
    SwapOutcome × Bool :=
  if !(checkGasPrice env.gasQ).isAcceptable then (.highGas, false)
  else
    match quoteData.tx with
    | none => (.failed, false)
    | some tx =>
      match tx.toAddr, tx.data with
      | some _, some _ =>
        let gl : Except String Nat :=
          match gasLimit with
          | some g => .ok g
          | none => env.estimate.map (fun e => e * 120 / 100)
        match gl with
        | .error _ => (.failed, false)
        | .ok _ =>
          match env.send with
          | none => (.failed, false)
          | some waitOk =>
            if !waitOk then (.failed, true)
            else
              let toAmount := quoteData.toAmount.getD
                (quoteData.dstAmount.getD (quoteData.amount.getD 0))
              let dstT := quoteData.dstToken.getD ⟨none, none, none⟩
              let toT := quoteData.toToken.getD ⟨none, none, none⟩
              let addr := toT.address.getD (dstT.address.getD
                (quoteData.toTokenAddress.getD (quoteData.dst.getD zeroAddress)))
              let symb := toT.symbol.getD (dstT.symbol.getD "Unknown")
              let deci := toT.decimals.getD (dstT.decimals.getD 18)
              (.ok toAmount ⟨addr, symb, deci⟩, true)
      | _, _ => (.failed, false)

/-! ## Bridge quote and execution (bridgeService.js lines 381-476) -/

/-- The transaction payload inside a quote step item (the JS `to` field is
named `toAddr` here because `to` is reserved). -/
structure BridgeTxData where
  toAddr : String
  data : String
  value : Option Nat
  gasPrice : Option Nat
  chainId : Nat
  deriving Repr, DecidableEq

/-- One item of a quote step. -/
structure StepItem where
  data : BridgeTxData
  deriving Repr, DecidableEq

/-- One named step of a Relay quote. -/
structure BridgeStep where
  id : String
  items : List StepItem
  requestId : Option String
  deriving Repr, DecidableEq

/-- A Relay quote response: its steps plus the (log-only) time estimate. -/
structure BridgeQuoteResp where
  steps : List BridgeStep
  timeEstimate : Option Nat
  deriving Repr, DecidableEq

/-- The parameters handed to `BridgeService.requestBridgeQuote`
(bridge.js lines 627-638 and 815-825). -/
structure BridgeQuoteParams where
  originChainId : Nat
  destinationChainId : Nat
  tokenAddress : String
  symbol : String
  amount : Nat
  slippageTolerance : String
  targetSymbol : Option String
  destinationCurrency : Option String
  deriving Repr, DecidableEq

/-- The destination-currency resolution of `requestBridgeQuote`
(bridgeService.js lines 386-398): an explicitly supplied address wins,
else a supplied target symbol is resolved against the registry for the
destination chain, else the bridged symbol itself is. -/
def resolveDestinationCurrency (p : BridgeQuoteParams) : Option String :=
  match p.destinationCurrency with
  | some c => some c
  | none =>
    match p.targetSymbol with
    | some t => tokenAddressOf p.destinationChainId t
    | none => tokenAddressOf p.destinationChainId p.symbol

/-- Result record of `executeBridgeTransaction` (the `tx`/`receipt` handles
are opaque; only the request id is consumed downstream). -/
structure BridgeExecResult where
  requestId : Option String
  deriving Repr, DecidableEq

/-- `BridgeService.executeBridgeTransaction(wallet, quoteResponse)`
(bridgeService.js lines 434-476): reject a quote without steps (line 438),
locate the step whose id is `"deposit"` and require a non-empty items list
(lines 442-445), then submit the first item's payload on the chain id
embedded in that payload (lines 451-462). The send oracle covers
`sendTransaction` plus the confirmation wait; the submitted-chain list
records the broadcast chain id on success. Throws propagate to the
caller. -/
def executeBridgeTransaction (send : Except String Unit) (q : BridgeQuoteResp) :
    Except String BridgeExecResult × List Nat :=
  if q.steps.isEmpty then (.error "Invalid quote response: No steps found", [])
  else
    match q.steps.find? (fun s => s.id = "deposit") with
    | none => (.error "Invalid quote response: No deposit step found", [])
    | some dstep =>
      match dstep.items.head? with
      | none => (.error "Invalid quote response: No deposit step found", [])
      | some item =>
        match send with
        | .error e => (.error e, [])
        | .ok _ => (.ok { requestId := dstep.requestId }, [item.data.chainId])

/-! ## On-chain write trace -/

/-- One submitted on-chain write, tagged by its submission site in the
source. -/
inductive Tx where
  | swapApprove (token spender : String)
  | swapExec
  | bridgeApprove (token spender : String)
  | bridgeExec (chainId : Nat)
  | rescueWrap
  | rescueBridgeExec (chainId : Nat)
  deriving Repr, DecidableEq

/-! ## Gas rescue (bridge.js lines 735-881) -/

/-- Oracle for one `bridgeETHForGas` call, in program order: the gas check
before anything (line 745), the Base native balance (line 752), the gas
check before wrapping (line 792), the wrap transaction (line 798; `none` =
threw before broadcast), the WETH balance read (line 809, log only), the
quote request (line 815), the gas check before the bridge (line 831), the
bridge submission, and the two status polls (lines 842      and 861). -/
structure RescueEnv where
  gasQA : Option Nat
  baseBalance : Nat
  gasQB : Option Nat
  wrapSend : Option Bool
  wethBalance : Nat
  quoteApi : Except String BridgeQuoteResp
  gasQC : Option Nat
  bridgeSend : Except String Unit
  status1 : Except String String
  status2 : Except String String
  deriving Repr

/-- What a `bridgeETHForGas` run produced: its boolean result, the writes it
submitted, and the bridge-quote request it made (if it got that far). -/
structure RescueResult where
  success : Bool
  txs : List Tx
  quoteReq : Option BridgeQuoteParams
  deriving Repr, DecidableEq

/-- The minimum Base balance demanded before a rescue
(bridge.js line 756): `GAS_BRIDGE_AMOUNT + 0.0005 ETH`. -/
def rescueMinRequired : Nat := GAS_BRIDGE_AMOUNT + 500000000000000

/-- `bridgeETHForGas(wallet, targetChainId)` (bridge.js lines 735-881).
Every throw inside the body is caught by the function's catch block and
reported as `false` (lines 874-880). Both terminal status branches return
`true` (lines 866-873). -/
def bridgeETHForGas (env : RescueEnv) (targetChainId : Nat) : RescueResult :=
  if !(checkGasPrice env.gasQA).isAcceptable then ⟨false, [], none⟩
  else if env.baseBalance < rescueMinRequired then ⟨false, [], none⟩
  else
    match chainNameOf targetChainId with
    | none => ⟨false, [], none⟩
    | some _ =>
      if !(checkGasPrice env.gasQB).isAcceptable then ⟨false, [], none⟩
      else
        match env.wrapSend with
        | none => ⟨false, [], none⟩
        | some wrapOk =>
          if !wrapOk then ⟨false, [Tx.rescueWrap], none⟩
          else
            let params : BridgeQuoteParams :=
              { originChainId := 8453, destinationChainId := targetChainId,
                tokenAddress := (tokenAddressOf 8453 "WETH").getD "undefined",
                symbol := "WETH", amount := GAS_BRIDGE_AMOUNT,
                slippageTolerance := "0.5", targetSymbol := none,
                destinationCurrency := some zeroAddress }
            match env.quoteApi with
            | .error _ => ⟨false, [Tx.rescueWrap], some params⟩
            | .ok quote =>
              if !(checkGasPrice env.gasQC).isAcceptable then
                ⟨false, [Tx.rescueWrap], some params⟩
              else
                let (res, subs) := executeBridgeTransaction env.bridgeSend quote
                let txs := Tx.rescueWrap :: subs.map Tx.rescueBridgeExec
                match res with
                | .error _ => ⟨false, txs, some params⟩
                | .ok _ =>
                  match env.status1 with
                  | .error _ => ⟨false, txs, some params⟩
                  | .ok _ =>
                    match env.status2 with
                    | .error _ => ⟨false, txs, some params⟩
                    | .ok _ => ⟨true, txs, some params⟩

/-! ## The bridge cycle (bridge.js lines 391-727)

`executeBridgeCycle` is embedded as a composition of stage functions, each
covering a contiguous line range of the source, over an oracle environment
listing every external interaction in program order. The result carries
the thrown-or-returned outcome, the on-chain writes submitted, and the
bridge-quote request parameters of the main path and of the nested rescue
(each site calls `requestBridgeQuote` at most once per cycle). -/

/-- `minGasETH` (bridge.js line 439): 0.0005 ETH in wei. -/
def minGasETH : Nat := 500000000000000

/-- Oracle environment for one `executeBridgeCycle` run, in program order:
the snapshot (line 398), gas check before setup (line 428), native balance
(line 435), nested rescue oracle (line 445), re-read balance after a rescue
(line 451), 1inch quote (line 477, `none` = `getQuote` returned null), gas
check before the swap approval (line 550), the swap approval (line 556),
the pre-flight gas estimate (line 571, `.error` = the estimate threw), the
raw gas price (line 580), the gas check inside `executeSwap` (line 168),
the swap submission, the bridge quote (line 627), the gas check before the
bridge approval (line 658), the bridge approval (line 664), the gas check
before bridge execution (line 679), the bridge submission (line 685), the
status poll (line 689), the random draw of `findDestinationChain`, and the
configured slippage. -/
structure CycleEnv where
  balances : Snapshot
  gasQ1 : Option Nat
  ethBalance : Nat
  rescue : RescueEnv
  updatedEthBalance : Nat
  swapApi : Option RawSwapQuote
  gasQ2 : Option Nat
  approve1 : ApproveOracle
  estimate : Except String Nat
  rawGasPrice : Nat
  gasQ3 : Option Nat
  swapSend : Option Bool
  quoteApi : Except String BridgeQuoteResp
  gasQ4 : Option Nat
  approve2 : ApproveOracle
  gasQ5 : Option Nat
  bridgeSend : Except String Unit
  statusApi : Except String String
  destRand : Nat
  slippage : String

/-- What one `executeBridgeCycle` run produced. `outcome` is `.error` when
the cycle threw (the outer catch on line 723 rethrows), `.ok` when it
returned normally (including every early `return`). -/
structure CycleResult where
  outcome : Except String Unit
  txs : List Tx
  mainQuoteReq : Option BridgeQuoteParams
  rescueQuoteReq : Option BridgeQuoteParams

/-- Prefix writes submitted by an earlier stage onto a later stage's
result. -/
def CycleResult.prependTxs (r : CycleResult) (txs : List Tx) : CycleResult :=
  { r with txs := txs ++ r.txs }

/-- Merge a completed rescue's writes and quote request into the result of
the continuation. -/
def CycleResult.withRescue (r : CycleResult) (res : RescueResult) : CycleResult :=
  { r with txs := res.txs ++ r.txs, rescueQuoteReq := res.quoteReq }

/-- The `tx.value` attached to a swap quote, defaulted to zero
(bridge.js lines 574 and 582). -/
def swapTxValue (q : RawSwapQuote) : Nat :=
  match q.tx with
  | some t => t.value.getD 0
  | none => 0

/-- Bridge execution and status poll (bridge.js lines 676-707): the gas
check before executing, `executeBridgeTransaction` on the quote, then one
status read. Runs inside the inner try, so `.error` outcomes here are
subject to the insufficient-funds filter of the catch on line 709. -/
def cycleBridgeExec (env : CycleEnv) (params : BridgeQuoteParams)
    (quote : BridgeQuoteResp) (acc : List Tx) : CycleResult :=
  if !(checkGasPrice env.gasQ5).isAcceptable then ⟨.ok (), acc, some params, none⟩
  else
    let rs := executeBridgeTransaction env.bridgeSend quote
    let txs := acc ++ rs.2.map Tx.bridgeExec
    match rs.1 with
    | .error e => ⟨.error e, txs, some params, none⟩
    | .ok _ =>
      match env.statusApi with
      | .error e => ⟨.error e, txs, some params, none⟩
      | .ok _ => ⟨.ok (), txs, some params, none⟩

/-- The zero-address substitution of bridge.js lines 608-617: a zero swap
output address is replaced by the registry address of the swap target on
the source chain, and the symbol forced to the swap target. -/
def substituteZeroAddress (c : Candidate) (sts : String)
    (outToken : SwapOutToken) : SwapOutToken :=
  if outToken.address = zeroAddress then
    { outToken with
        address := (tokenAddressOf c.sourceChainId sts).getD "undefined",
        symbol := sts }
  else outToken

/-- The parameter record built for the main-path `requestBridgeQuote` call
(bridge.js lines 627-638). -/
def cycleBridgeParams (env : CycleEnv) (c : Candidate) (sts : String)
    (outAmount : Nat) (outToken : SwapOutToken) : BridgeQuoteParams :=
  let destinationChainId := (findDestinationChain env.destRand c.sourceChainId).getD 0
  let destSymbol := (TARGET_TOKENS sts).getD "undefined"
  { originChainId := c.sourceChainId, destinationChainId := destinationChainId,
    tokenAddress := (substituteZeroAddress c sts outToken).address, symbol := sts,
    amount := outAmount, slippageTolerance := env.slippage,
    targetSymbol := some destSymbol,
    destinationCurrency := tokenAddressOf destinationChainId destSymbol }

/-- Post-swap processing (bridge.js lines 603-707): pick the destination
chain, substitute the registry address when the swap reported the zero
address (lines 610-617), derive the destination symbol as the opposite of
the swap target (line 621), request the bridge quote (line 627), locate the
deposit step and approve the relayer unless the token is the native
placeholder (lines 644-673), then execute and poll. -/
def cyclePostSwap (env : CycleEnv) (c : Candidate) (sts : String)
    (outAmount : Nat) (outToken : SwapOutToken) : CycleResult :=
  let tok := substituteZeroAddress c sts outToken
  let params := cycleBridgeParams env c sts outAmount outToken
  match env.quoteApi with
  | .error e => ⟨.error e, [], some params, none⟩
  | .ok quote =>
    match quote.steps.find? (fun s => s.id = "deposit") with
    | none => ⟨.error "Invalid quote response: No deposit step found", [], some params, none⟩
    | some dstep =>
      match dstep.items.head? with
      | none => ⟨.error "Invalid quote response: No deposit step found", [], some params, none⟩
      | some item =>
        let relayerAddress := item.data.toAddr
        if tok.address ≠ nativeEthPlaceholder then
          if !(checkGasPrice env.gasQ4).isAcceptable then ⟨.ok (), [], some params, none⟩
          else
            let ap := approveToken env.approve2
            let txs2 := if ap.2 then [Tx.bridgeApprove tok.address relayerAddress] else []
            if !ap.1 then
              ⟨.error ("Failed to approve " ++ tok.symbol ++ " for relayer"), txs2,
                some params, none⟩
            else cycleBridgeExec env params quote txs2
        else cycleBridgeExec env params quote []

/-- The inner try block (bridge.js lines 569-707): pre-flight gas estimate,
total-cost check against the (stale) line-435 balance, the swap via
`executeSwap` with the +20% gas limit, and — on swap success — the
post-swap stage. A failed swap throws `1inch swap failed` (line 598). -/
def cycleInnerTry (env : CycleEnv) (c : Candidate) (sts : String)
    (swapQuote : RawSwapQuote) : CycleResult :=
  match env.estimate with
  | .error e => ⟨.error e, [], none, none⟩
  | .ok gasEstimate =>
    let totalCost := gasEstimate * env.rawGasPrice + swapTxValue swapQuote
    if env.ethBalance < totalCost then
      ⟨.error "Insufficient ETH for transaction", [], none, none⟩
    else
      let gasLimit := gasEstimate * 120 / 100
      let sr := executeSwap ⟨env.gasQ3, env.estimate, env.swapSend⟩ swapQuote (some gasLimit)
      let stxs := if sr.2 then [Tx.swapExec] else []
      match sr.1 with
      | .ok outAmount outToken =>
        (cyclePostSwap env c sts outAmount outToken).prependTxs stxs
      | _ => ⟨.error "1inch swap failed", stxs, none, none⟩

/-- JS `message.includes(needle)`. -/
def jsIncludes (message needle : String) : Bool :=
  decide (needle.toList <:+: message.toList)

/-- The catch block on bridge.js lines 709-716: an error whose message
contains `insufficient funds` turns into a normal early return; anything
else is rethrown. -/
def innerCatch (r : CycleResult) : CycleResult :=
  match r.outcome with
  | .error e =>
    if jsIncludes e "insufficient funds" then { r with outcome := .ok () } else r
  | .ok _ => r

/-- Swap approval and the guarded inner try (bridge.js lines 543-717):
require the router address from the quote (line 545), check the gas price
(line 550, early return when too high), approve the router (line 556,
throwing on failure), then run the inner try under its catch. -/
def cycleApproveSwap (env : CycleEnv) (c : Candidate) (sts : String)
    (swapQuote : RawSwapQuote) (router : String) : CycleResult :=
  if !(checkGasPrice env.gasQ2).isAcceptable then ⟨.ok (), [], none, none⟩
  else
    let ap := approveToken env.approve1
    let txs1 := if ap.2 then [Tx.swapApprove c.tokenAddress router] else []
    if !ap.1 then
      ⟨.error ("Failed to approve " ++ c.symbol ++ " for 1inch router"), txs1, none, none⟩
    else (innerCatch (cycleInnerTry env c sts swapQuote)).prependTxs txs1

/-- Validation of the 1inch quote (bridge.js lines 493-547): require the
`tx` field (line 494), repair a missing destination amount from the
`amount` field or throw (lines 500-509), and require the router address
(line 545). The token-info extraction on lines 512-540 only feeds log
output and is omitted. -/
def cycleWithQuote (env : CycleEnv) (c : Candidate) (sts : String)
    (rawQuote : RawSwapQuote) : CycleResult :=
  match rawQuote.tx with
  | none => ⟨.error "Invalid swap quote response: Missing tx field", [], none, none⟩
  | some tx =>
    let q1 : Except String RawSwapQuote :=
      if rawQuote.toAmount.isNone && rawQuote.dstAmount.isNone then
        match rawQuote.amount with
        | some a => .ok { rawQuote with toAmount := some a }
        | none => .error "Invalid swap quote response: Missing destination amount"
      else .ok rawQuote
    match q1 with
    | .error e => ⟨.error e, [], none, none⟩
    | .ok q =>
      match tx.toAddr with
      | none => ⟨.error "Failed to get 1inch router address", [], none, none⟩
      | some router => cycleApproveSwap env c sts q router

/-- Swap-target derivation and 1inch quote fetch (bridge.js lines 469-491):
the swap target is `TARGET_TOKENS[candidate symbol]`; a null quote throws
(line 487). -/
def cycleSwapQuotePhase (env : CycleEnv) (c : Candidate) : CycleResult :=
  let sts := (TARGET_TOKENS c.symbol).getD "undefined"
  match env.swapApi with
  | none => ⟨.error "Failed to get 1inch swap quote", [], none, none⟩
  | some raw => cycleWithQuote env c sts (normalizeQuote raw)

/-- Gas sufficiency phase (bridge.js lines 427-467): the fresh gas check
(early return when too high), then the native-balance check against
`minGasETH`; when short, run `bridgeETHForGas` and either continue (balance
re-read strictly above the minimum), or return after the rescue. -/
def cycleGasPhase (env : CycleEnv) (c : Candidate) : CycleResult :=
  if !(checkGasPrice env.gasQ1).isAcceptable then ⟨.ok (), [], none, none⟩
  else if env.ethBalance < minGasETH then
    let r := bridgeETHForGas env.rescue c.sourceChainId
    if r.success then
      if minGasETH < env.updatedEthBalance then
        (cycleSwapQuotePhase env c).withRescue r
      else ⟨.ok (), r.txs, none, r.quoteReq⟩
    else ⟨.ok (), r.txs, none, r.quoteReq⟩
  else cycleSwapQuotePhase env c

/-- `executeBridgeCycle(wallet, config)` (bridge.js lines 391-727): take the
snapshot, select the candidate (a throw propagates — the `if (!bestToken)`
skip branch on lines 403-407 is unreachable because `findBestTokenToBridge`
throws instead of returning a falsy value), then — the selected symbol is
never `ETH` — run the gas, swap and bridge phases. The outer catch
(line 721-724) rethrows every error. -/
def executeBridgeCycle (env : CycleEnv) : CycleResult :=
  match findBestTokenToBridge env.balances with
  | .error e => ⟨.error e, [], none, none⟩
  | .ok c =>
    if c.symbol ≠ "ETH" then cycleGasPhase env c
    else ⟨.ok (), [], none, none⟩

/-! ## Concrete data used by witnesses and counterexamples -/

/-- USDC on Base, from the registry. -/
def usdcOnBase : String := "0x833589fCD6eDb6E08f4c7C32D4f71b54bdA02913"

/-- WETH on Base, from the registry. -/
def wethOnBase : String := "0x4200000000000000000000000000000000000006"

/-- A snapshot holding, on Base, 5 USDC and 0.002 WETH — both above their
minimum thresholds. -/
def cexSnapshot : Snapshot :=
  [(8453,
    { chainName := "base"
      tokens :=
        [("USDC", .ok { address := usdcOnBase, balance := 5000000,
                        formatted := "5.0", decimals := 6 }),
         ("WETH", .ok { address := wethOnBase, balance := 2000000000000000,
                        formatted := "0.002", decimals := 18 })] })]

/-- A read oracle reporting a zero balance for every tracked token. -/
def zeroOracle : ReadOracle := fun _ s => .ok (if s = "USDC" then 6 else 18, 0)

/-- The snapshot the balance reader produces from `zeroOracle`: every chain
present, every balance zero — no token meets its minimum threshold. -/
def lowSnapshot : Snapshot := checkTokenBalancesAcrossChains zeroOracle

/-- A rescue oracle whose quote request fails; used where the rescue's
details are irrelevant. -/
def sampleRescueEnv : RescueEnv :=
  { gasQA := some 1000000, baseBalance := 0, gasQB := some 1000000,
    wrapSend := some true, wethBalance := 0, quoteApi := .error "quote failed",
    gasQC := some 1000000, bridgeSend := .ok (), status1 := .ok "pending",
    status2 := .ok "pending" }

/-- A 1inch quote carrying a transaction but no output-token info, so that
`executeSwap` falls back to the zero address. -/
def happyQuote : RawSwapQuote :=
  { tx := some { toAddr := some "0x1inchRouter", data := some "0xdeadbeef",
                 value := some 0 },
    toAmount := some 1000000, dstAmount := none, amount := none,
    toToken := none, dstToken := none, toTokenAddress := none, dst := none }

/-- A snapshot with a single qualifying WETH balance on Base. -/
def happySnapshot : Snapshot :=
  [(8453,
    { chainName := "base"
      tokens := [("WETH", .ok { address := wethOnBase,
                                balance := 2000000000000000,
                                formatted := "0.002", decimals := 18 })] })]

/-- A cycle environment over the given snapshot that passes every gas gate,
has ample native balance, already-granted approvals, and a successful swap
whose quote is `happyQuote`; the bridge-quote request itself fails, which
happens after the request parameters are recorded. -/
def sampleCycleEnv (bal : Snapshot) : CycleEnv :=
  { balances := bal, gasQ1 := some 1000000, ethBalance := 1000000000000000000,
    rescue := sampleRescueEnv, updatedEthBalance := 0, swapApi := some happyQuote,
    gasQ2 := some 1000000, approve1 := .read 1 none, estimate := .ok 100000,
    rawGasPrice := 1000000, gasQ3 := some 1000000, swapSend := some true,
    quoteApi := .error "quote failed", gasQ4 := some 1000000,
    approve2 := .read 1 none, gasQ5 := some 1000000, bridgeSend := .ok (),
    statusApi := .ok "pending", destRand := 0, slippage := "0.5" }

/-- A well-formed Relay quote: an `approve` step followed by a `deposit`
step whose first item embeds chain id 42161. -/
def sampleBridgeQuote : BridgeQuoteResp :=
  { steps :=
      [{ id := "approve", items := [], requestId := none },
       { id := "deposit",
         items := [{ data := { toAddr := "0xRelayer", data := "0xdata",
                               value := some 0, gasPrice := none,
                               chainId := 42161 } }],
         requestId := some "req-1" }],
    timeEstimate := some 120 }

/-- A Relay quote without any deposit step. -/
def noDepositQuote : BridgeQuoteResp :=
  { steps := [{ id := "approve", items := [], requestId := none }],
    timeEstimate := none }

/-- The candidate the script-level selector produces from
`happySnapshot`. -/
def happyCand : Candidate :=
  { symbol := "WETH", sourceChainId := 8453, chainName := "base",
    tokenAddress := wethOnBase, balance := 2000000000000000,
    formatted := "0.002", decimals := 18, targetSymbol := "USDC" }

/-- The bridge-quote request parameters recorded by a
`sampleCycleEnv happySnapshot` run: USDC (substituted for the zero address)
from Base to WETH on Arbitrum. -/
def happyParams : BridgeQuoteParams :=
  { originChainId := 8453, destinationChainId := 42161,
    tokenAddress := usdcOnBase, symbol := "USDC", amount := 1000000,
    slippageTolerance := "0.5", targetSymbol := some "WETH",
    destinationCurrency := some "0x82aF49447D8a07e3bd95BD0d56f35241523fBab1" }

/-! ## Selection-fold lemmas -/

/-- One selection step either keeps the accumulator or installs a
qualifying entry. -/
theorem selectionStep_eq_or (s : String) (acc : Option BestAcc)
    (e : Nat × ChainData) :
    selectionStep s acc e = acc ∨
    ∃ tb, e.2.get s = some (.ok tb) ∧ MIN_BRIDGE_AMOUNTS s ≤ tb.balance ∧
      selectionStep s acc e = some (mkBest e.1 tb) := by
  rcases hget : e.2.get s with _ | te
  · left; simp [selectionStep, hget]
  · cases te with
    | ok tb =>
      by_cases hmin : tb.balance < MIN_BRIDGE_AMOUNTS s
      · left; simp [selectionStep, hget, hmin]
      · cases acc with
        | none =>
          right; exact ⟨tb, rfl, le_of_not_lt hmin, by simp [selectionStep, hget, hmin]⟩
        | some b =>
          by_cases hb : b.balance < tb.balance
          · right; exact ⟨tb, rfl, le_of_not_lt hmin, by simp [selectionStep, hget, hmin, hb]⟩
          · left; simp [selectionStep, hget, hmin, hb]
    | err m => left; simp [selectionStep, hget]

/-- Starting from an installed accumulator, a step keeps some accumulator
whose balance does not decrease. -/
theorem selectionStep_some (s : String) (b0 : BestAcc) (e : Nat × ChainData) :
    ∃ b1, selectionStep s (some b0) e = some b1 ∧ b0.balance ≤ b1.balance := by
  rcases hget : e.2.get s with _ | te
  · exact ⟨b0, by simp [selectionStep, hget], le_refl _⟩
  · cases te with
    | ok tb =>
      by_cases hmin : tb.balance < MIN_BRIDGE_AMOUNTS s
      · exact ⟨b0, by simp [selectionStep, hget, hmin], le_refl _⟩
      · by_cases hb : b0.balance < tb.balance
        · exact ⟨mkBest e.1 tb, by simp [selectionStep, hget, hmin, hb],
            le_of_lt hb⟩
        · exact ⟨b0, by simp [selectionStep, hget, hmin, hb], le_refl _⟩
    | err m => exact ⟨b0, by simp [selectionStep, hget], le_refl _⟩

/-- A fold from an installed accumulator stays installed and only grows. -/
theorem selectionFold_some (s : String) :
    ∀ (l : Snapshot) (b0 : BestAcc),
      ∃ b, l.foldl (selectionStep s) (some b0) = some b ∧ b0.balance ≤ b.balance := by
  intro l
  induction l with
  | nil => exact fun b0 => ⟨b0, rfl, le_refl _⟩
  | cons e l ih =>
    intro b0
    obtain ⟨b1, h1, hle1⟩ := selectionStep_some s b0 e
    obtain ⟨b, hb, hle⟩ := ih b1
    exact ⟨b, by rw [List.foldl_cons, h1]; exact hb, le_trans hle1 hle⟩

/-- Any qualifying entry forces the fold to finish installed, at a balance
at least as large as that entry's. -/
theorem selectionFold_qualifying (s : String) :
    ∀ (l : Snapshot) (acc : Option BestAcc) (p : Nat × ChainData) (tb : TokenBalance),
      p ∈ l → p.2.get s = some (.ok tb) → MIN_BRIDGE_AMOUNTS s ≤ tb.balance →
      ∃ b, l.foldl (selectionStep s) acc = some b ∧ tb.balance ≤ b.balance := by
  intro l
  induction l with
  | nil => intro acc p tb hp; exact absurd hp (List.not_mem_nil p)
  | cons e l ih =>
    intro acc p tb hp hget hmin
    rcases List.mem_cons.mp hp with rfl | hpl
    · have hstep : ∃ b1, selectionStep s acc p = some b1 ∧ tb.balance ≤ b1.balance := by
        cases acc with
        | none =>
          exact ⟨mkBest p.1 tb,
            by simp [selectionStep, hget, Nat.not_lt.mpr hmin], le_refl _⟩
        | some b0 =>
          by_cases hb : b0.balance < tb.balance
          · exact ⟨mkBest p.1 tb,
              by simp [selectionStep, hget, Nat.not_lt.mpr hmin, hb], le_refl _⟩
          · exact ⟨b0, by simp [selectionStep, hget, Nat.not_lt.mpr hmin, hb],
              Nat.le_of_not_lt hb⟩
      obtain ⟨b1, h1, hle1⟩ := hstep
      obtain ⟨b, hb, hle⟩ := selectionFold_some s l b1
      exact ⟨b, by rw [List.foldl_cons, h1]; exact hb, le_trans hle1 hle⟩
    · rw [List.foldl_cons]
      exact ih (selectionStep s acc e) p tb hpl hget hmin

/-- Where an installed fold result comes from: the initial accumulator or a
qualifying entry of the list. -/
theorem selectionFold_provenance (s : String) :
    ∀ (l : Snapshot) (acc : Option BestAcc) (b : BestAcc),
      l.foldl (selectionStep s) acc = some b →
      acc = some b ∨ ∃ p ∈ l, ∃ tb, p.2.get s = some (.ok tb) ∧
        MIN_BRIDGE_AMOUNTS s ≤ tb.balance ∧ b = mkBest p.1 tb := by
  intro l
  induction l with
  | nil => intro acc b h; left; exact h
  | cons e l ih =>
    intro acc b h
    rw [List.foldl_cons] at h
    rcases ih _ b h with hacc | ⟨p, hp, tb, hget, hmin, rfl⟩
    · rcases selectionStep_eq_or s acc e with heq | ⟨tb, hget, hmin, heq⟩
      · left; rw [← heq]; exact hacc
      · right
        refine ⟨e, List.mem_cons_self e l, tb, hget, hmin, ?_⟩
        rw [hacc] at heq
        exact Option.some_injective _ heq
    · right; exact ⟨p, List.mem_cons_of_mem e hp, tb, hget, hmin, rfl⟩

/-- With no qualifying entry anywhere, the fold finishes empty. -/
theorem selectionFold_none (s : String) :
    ∀ (l : Snapshot),
      (∀ p ∈ l, ∀ tb, p.2.get s = some (.ok tb) → tb.balance < MIN_BRIDGE_AMOUNTS s) →
      l.foldl (selectionStep s) none = none := by
  intro l
  induction l with
  | nil => intro _; rfl
  | cons e l ih =>
    intro h
    rw [List.foldl_cons]
    have hstep : selectionStep s none e = none := by
      rcases hget : e.2.get s with _ | te
      · simp [selectionStep, hget]
      · cases te with
        | ok tb =>
          have := h e (List.mem_cons_self e l) tb hget
          simp [selectionStep, hget, this]
        | err m => simp [selectionStep, hget]
    rw [hstep]
    exact ih (fun p hp => h p (List.mem_cons_of_mem e hp))

/-- Every supported chain id has a name in the registry. -/
theorem chainNameOf_supported (c : Nat) (h : c ∈ chainIdsList) :
    (chainNameOf c).isSome = true := by
  simp only [chainIdsList, chainIdsEntries] at h
  simp only [List.map_cons, List.map_nil, List.mem_cons, List.not_mem_nil,
    or_false] at h
  rcases h with rfl | rfl | rfl | rfl <;> rfl

end RelayBot

namespace RelayBot

/-! ## Claim C1 -/

/-- C1 (amended): on every snapshot whose chain keys are supported, with at
least one chain holding a WETH balance at or above the 0.001 minimum, the
script-level selector `findBestTokenToBridge` of scripts/bridge.js returns
a WETH-sourced candidate with target symbol USDC — never a USDC-sourced
one — drawn from a qualifying chain, whose balance is the largest
qualifying WETH balance. (The claim as frozen also covers
`BridgeService.findBestTokenToBridge`, which instead prioritizes USDC; see
the counterexample.) -/
theorem selection_weth_priority_script (balances : Snapshot)
    (hkeys : ∀ p ∈ balances, p.1 ∈ chainIdsList)
    (hqual : ∃ p ∈ balances, ∃ tb, p.2.get "WETH" = some (.ok tb) ∧
      MIN_BRIDGE_AMOUNTS "WETH" ≤ tb.balance) :
    ∃ c, findBestTokenToBridge balances = .ok c ∧ c.symbol = "WETH" ∧
      c.targetSymbol = "USDC" ∧
      (∃ p ∈ balances, ∃ tb, p.2.get "WETH" = some (.ok tb) ∧
        MIN_BRIDGE_AMOUNTS "WETH" ≤ tb.balance ∧ c.sourceChainId = p.1 ∧
        c.balance = tb.balance ∧ c.tokenAddress = tb.address) ∧
      (∀ p ∈ balances, ∀ tb, p.2.get "WETH" = some (.ok tb) →
        MIN_BRIDGE_AMOUNTS "WETH" ≤ tb.balance → tb.balance ≤ c.balance) := by
  obtain ⟨p0, hp0, tb0, hget0, hmin0⟩ := hqual
  obtain ⟨b, hfold, _⟩ :=
    selectionFold_qualifying "WETH" balances none p0 tb0 hp0 hget0 hmin0
  rcases selectionFold_provenance "WETH" balances none b hfold with hnone | hprov
  · exact absurd hnone (by simp)
  obtain ⟨p, hp, tb, hget, hmin, rfl⟩ := hprov
  have hname : ((chainNameOf (mkBest p.1 tb).chainId).isSome) = true :=
    chainNameOf_supported _ (by simpa [mkBest] using hkeys p hp)
  obtain ⟨nm, hnm⟩ := Option.isSome_iff_exists.mp hname
  refine ⟨{ symbol := "WETH", sourceChainId := (mkBest p.1 tb).chainId,
            chainName := nm, tokenAddress := (mkBest p.1 tb).tokenAddress,
            balance := (mkBest p.1 tb).balance,
            formatted := (mkBest p.1 tb).formatted,
            decimals := (mkBest p.1 tb).decimals, targetSymbol := "USDC" },
      ?_, rfl, rfl, ?_, ?_⟩
  · simp [findBestTokenToBridge, findTokenBalanceOnChains, hfold, hnm,
      Bind.bind, Except.bind]
  · exact ⟨p, hp, tb, hget, hmin, by simp [mkBest], by simp [mkBest],
      by simp [mkBest]⟩
  · intro p' hp' tb' hget' hmin'
    obtain ⟨b', hfold', hle'⟩ :=
      selectionFold_qualifying "WETH" balances none p' tb' hp' hget' hmin'
    rw [hfold] at hfold'
    exact (Option.some_injective _ hfold') ▸ hle'

/-- C1 witness: 0.002 WETH on Base qualifies, and the script-level selector
returns the WETH candidate with target USDC. -/
theorem selection_weth_priority_script_witness :
    ∃ c, findBestTokenToBridge cexSnapshot = .ok c ∧ c.symbol = "WETH" ∧
      c.targetSymbol = "USDC" ∧
      (∃ p ∈ cexSnapshot, ∃ tb, p.2.get "WETH" = some (.ok tb) ∧
        MIN_BRIDGE_AMOUNTS "WETH" ≤ tb.balance ∧ c.sourceChainId = p.1 ∧
        c.balance = tb.balance ∧ c.tokenAddress = tb.address) ∧
      (∀ p ∈ cexSnapshot, ∀ tb, p.2.get "WETH" = some (.ok tb) →
        MIN_BRIDGE_AMOUNTS "WETH" ≤ tb.balance → tb.balance ≤ c.balance) :=
  selection_weth_priority_script cexSnapshot
    (by intro p hp; simp [cexSnapshot] at hp; simp [hp, chainIdsList, chainIdsEntries])
    ⟨cexSnapshot.head (by simp [cexSnapshot]), by simp [cexSnapshot],
      { address := wethOnBase, balance := 2000000000000000,
        formatted := "0.002", decimals := 18 },
      by simp [cexSnapshot, ChainData.get, List.lookup], by decide⟩

/-- C1 counterexample: on a snapshot where a WETH balance qualifies (0.002
WETH on Base) but 5 USDC also sit on Base, the service-level
`BridgeService.findBestTokenToBridge` returns the USDC-sourced candidate,
so the claim as frozen — which covers that selection operation — fails. -/
theorem service_selection_usdc_first_cex :
    (∃ p ∈ cexSnapshot, ∃ tb, p.2.get "WETH" = some (.ok tb) ∧
      MIN_BRIDGE_AMOUNTS "WETH" ≤ tb.balance) ∧
    bsFindBestTokenToBridge cexSnapshot =
      .ok { symbol := "USDC", sourceChainId := 8453, chainName := "base",
            tokenAddress := usdcOnBase, balance := 5000000 } := by
  constructor
  · exact ⟨cexSnapshot.head (by simp [cexSnapshot]), by simp [cexSnapshot],
      { address := wethOnBase, balance := 2000000000000000,
        formatted := "0.002", decimals := 18 },
      by simp [cexSnapshot, ChainData.get, List.lookup], by decide⟩
  · rfl

/-! ## Claim C2 -/

/-- C2 (code bug evidence): on the snapshot produced by the balance reader
from an all-zero oracle, the selection operation of scripts/bridge.js does
not return a no-candidate value — it throws, and the cycle orchestrator
therefore ends the cycle with a propagated error (the skip branch at
bridge.js lines 403-407 is unreachable); no transaction is submitted. -/
theorem selection_throws_on_empty_cycle_error :
    findBestTokenToBridge lowSnapshot =
      .error "No available token balance found on any chain" ∧
    (executeBridgeCycle (sampleCycleEnv lowSnapshot)).outcome =
      .error "No available token balance found on any chain" ∧
    (executeBridgeCycle (sampleCycleEnv lowSnapshot)).txs = [] :=
  ⟨rfl, rfl, rfl⟩

end RelayBot

namespace RelayBot

/-! ## Claim C4 -/

/-- C4: for every source chain id in the supported set,
`BridgeService.findDestinationChain` returns a chain id from the fixed
4-chain set that differs from the source, whatever the random draw. -/
theorem destination_chain_in_set_ne_source (rand src : Nat)
    (h : src ∈ chainIdsList) :
    ∃ d, findDestinationChain rand src = some d ∧ d ∈ chainIdsList ∧ d ≠ src := by
  have h3 : rand % 3 = 0 ∨ rand % 3 = 1 ∨ rand % 3 = 2 := by omega
  simp only [chainIdsList, chainIdsEntries, List.map_cons, List.map_nil,
    List.mem_cons, List.not_mem_nil, or_false] at h
  rcases h with rfl | rfl | rfl | rfl <;>
    rcases h3 with hr | hr | hr <;>
      simp [findDestinationChain, chainIdsList, chainIdsEntries, hr]

/-- C4 witness: from source 8453 with draw 0 the destination is a supported
chain other than 8453. -/
theorem destination_chain_in_set_ne_source_witness :
    8453 ∈ chainIdsList ∧
    ∃ d, findDestinationChain 0 8453 = some d ∧ d ∈ chainIdsList ∧ d ≠ 8453 :=
  ⟨by decide, destination_chain_in_set_ne_source 0 8453 (by decide)⟩

/-! ## Claim C6 -/

/-- C6: whenever the reserve chain's native balance is below the rescue
amount plus the 0.0005 fee allowance, `bridgeETHForGas` reports failure and
submits no transaction on any chain (and makes no bridge-quote request). -/
theorem gas_rescue_insufficient_reserve_aborts (renv : RescueEnv) (tc : Nat)
    (h : renv.baseBalance < rescueMinRequired) :
    bridgeETHForGas renv tc = { success := false, txs := [], quoteReq := none } := by
  unfold bridgeETHForGas
  split
  · rfl
  all_goals simp_all

/-- C6 witness: spec scenario C — 0.0008 native on the reserve chain is
below the 0.0015 requirement, and the rescue aborts with no writes. -/
theorem gas_rescue_insufficient_reserve_aborts_witness :
    800000000000000 < rescueMinRequired ∧
    bridgeETHForGas { sampleRescueEnv with baseBalance := 800000000000000 } 42161 =
      { success := false, txs := [], quoteReq := none } :=
  ⟨by decide,
    gas_rescue_insufficient_reserve_aborts
      { sampleRescueEnv with baseBalance := 800000000000000 } 42161 (by decide)⟩

/-! ## Claim C7 -/

/-- C7: `BridgeService.executeBridgeTransaction` fails with a
malformed-quote error and submits nothing when the quote has no deposit
step with a non-empty items list; otherwise it submits exactly the first
deposit item's payload on the chain id embedded inside that payload. -/
theorem bridge_exec_deposit_step_payload_chain :
    (∀ send q,
      (∀ dstep, q.steps.find? (fun s => s.id = "deposit") = some dstep →
        dstep.items = []) →
      ∃ e, executeBridgeTransaction send q = (.error e, []) ∧
        (e = "Invalid quote response: No steps found" ∨
         e = "Invalid quote response: No deposit step found"))
    ∧ (∀ send q dstep item,
        q.steps.find? (fun s => s.id = "deposit") = some dstep →
        dstep.items.head? = some item → send = .ok () →
        executeBridgeTransaction send q =
          (.ok { requestId := dstep.requestId }, [item.data.chainId])) := by
  constructor
  · intro send q hmal
    by_cases hse : q.steps.isEmpty
    · exact ⟨"Invalid quote response: No steps found",
        by simp [executeBridgeTransaction, hse], Or.inl rfl⟩
    · cases hf : q.steps.find? (fun s => s.id = "deposit") with
      | none =>
        exact ⟨"Invalid quote response: No deposit step found",
          by simp [executeBridgeTransaction, hse, hf], Or.inr rfl⟩
      | some dstep =>
        have hit : dstep.items = [] := hmal dstep hf
        exact ⟨"Invalid quote response: No deposit step found",
          by simp [executeBridgeTransaction, hse, hf, hit], Or.inr rfl⟩
  · intro send q dstep item hf hit hsend
    have hse : q.steps.isEmpty = false := by
      cases hq : q.steps with
      | nil => rw [hq] at hf; simp at hf
      | cons a l => simp [hq]
    simp [executeBridgeTransaction, hse, hf, hit, hsend]

/-- C7 witness: a quote without a deposit step fails with a malformed-quote
error and no submission; a well-formed quote submits on the payload's
embedded chain id 42161 and returns the deposit step's request id. -/
theorem bridge_exec_deposit_step_payload_chain_witness :
    (∃ e, executeBridgeTransaction (.ok ()) noDepositQuote = (.error e, []) ∧
      (e = "Invalid quote response: No steps found" ∨
       e = "Invalid quote response: No deposit step found")) ∧
    executeBridgeTransaction (.ok ()) sampleBridgeQuote =
      (.ok { requestId := some "req-1" }, [42161]) := by
  constructor
  · exact bridge_exec_deposit_step_payload_chain.1 (.ok ()) noDepositQuote
      (by intro d hd; simp [noDepositQuote] at hd)
  · exact bridge_exec_deposit_step_payload_chain.2 (.ok ()) sampleBridgeQuote
      _ _ rfl rfl rfl

end RelayBot

namespace RelayBot

/-! ## Tracing the main-path bridge-quote request -/

/-- `prependTxs` leaves the recorded quote request unchanged. -/
theorem prependTxs_mainQuoteReq (r : CycleResult) (l : List Tx) :
    (r.prependTxs l).mainQuoteReq = r.mainQuoteReq := rfl

/-- `withRescue` leaves the recorded main quote request unchanged. -/
theorem withRescue_mainQuoteReq (r : CycleResult) (res : RescueResult) :
    (r.withRescue res).mainQuoteReq = r.mainQuoteReq := rfl

/-- The insufficient-funds catch leaves the recorded quote request
unchanged. -/
theorem innerCatch_mainQuoteReq (r : CycleResult) :
    (innerCatch r).mainQuoteReq = r.mainQuoteReq := by
  rcases r with ⟨o, t, m, rq⟩
  cases o with
  | error e =>
    unfold innerCatch
    dsimp only
    split <;> rfl
  | ok u => rfl

/-- Every branch of the bridge-execution stage records the given request
parameters. -/
theorem cycleBridgeExec_mainQuoteReq (env : CycleEnv) (params : BridgeQuoteParams)
    (quote : BridgeQuoteResp) (acc : List Tx) :
    (cycleBridgeExec env params quote acc).mainQuoteReq = some params := by
  unfold cycleBridgeExec
  split
  · rfl
  · cases h : (executeBridgeTransaction env.bridgeSend quote).1 with
    | error e => simp [h]
    | ok r =>
      cases hs : env.statusApi with
      | error e => simp [h, hs]
      | ok s => simp [h, hs]

/-- Every branch of the post-swap stage records exactly
`cycleBridgeParams`. -/
theorem cyclePostSwap_mainQuoteReq (env : CycleEnv) (c : Candidate) (sts : String)
    (a : Nat) (ot : SwapOutToken) :
    (cyclePostSwap env c sts a ot).mainQuoteReq =
      some (cycleBridgeParams env c sts a ot) := by
  unfold cyclePostSwap
  cases hq : env.quoteApi with
  | error e => simp [hq]
  | ok quote =>
    simp only [hq]
    cases hf : quote.steps.find? (fun s => s.id = "deposit") with
    | none => simp [hf]
    | some dstep =>
      cases hh : dstep.items.head? with
      | none => simp [hf, hh]
      | some item =>
        simp only [hf, hh]
        split
        · split
          · rfl
          · split
            · rfl
            · exact cycleBridgeExec_mainQuoteReq env _ quote _
        · exact cycleBridgeExec_mainQuoteReq env _ quote _

/-- A quote request recorded by the inner try comes from the post-swap
stage with the same swap-target symbol. -/
theorem cycleInnerTry_mainQuoteReq (env : CycleEnv) (c : Candidate) (sts : String)
    (swq : RawSwapQuote) (q : BridgeQuoteParams) :
    (cycleInnerTry env c sts swq).mainQuoteReq = some q →
    ∃ a ot, q = cycleBridgeParams env c sts a ot := by
  intro h
  unfold cycleInnerTry at h
  cases he : env.estimate with
  | error e => simp [he] at h
  | ok ge =>
    simp only [he] at h
    split at h
    · simp at h
    · rcases hsr : (executeSwap ⟨env.gasQ3, Except.ok ge, env.swapSend⟩ swq
          (some (ge * 120 / 100))).1 with _ | _ | ⟨a, ot⟩ <;>
        simp only [hsr] at h
      · simp at h
      · simp at h
      · rw [prependTxs_mainQuoteReq, cyclePostSwap_mainQuoteReq] at h
        exact ⟨a, ot, (Option.some_injective _ h).symm⟩

/-- A quote request recorded by the approve-and-swap stage comes from the
post-swap stage. -/
theorem cycleApproveSwap_mainQuoteReq (env : CycleEnv) (c : Candidate) (sts : String)
    (swq : RawSwapQuote) (router : String) (q : BridgeQuoteParams) :
    (cycleApproveSwap env c sts swq router).mainQuoteReq = some q →
    ∃ a ot, q = cycleBridgeParams env c sts a ot := by
  intro h
  unfold cycleApproveSwap at h
  split at h
  · simp at h
  · dsimp only at h
    split at h
    · simp at h
    · rw [prependTxs_mainQuoteReq, innerCatch_mainQuoteReq] at h
      exact cycleInnerTry_mainQuoteReq env c sts swq q h

/-- A quote request recorded by the quote-validation stage comes from the
post-swap stage. -/
theorem cycleWithQuote_mainQuoteReq (env : CycleEnv) (c : Candidate) (sts : String)
    (raw : RawSwapQuote) (q : BridgeQuoteParams) :
    (cycleWithQuote env c sts raw).mainQuoteReq = some q →
    ∃ a ot, q = cycleBridgeParams env c sts a ot := by
  intro h
  unfold cycleWithQuote at h
  cases htx : raw.tx with
  | none => simp [htx] at h
  | some tx =>
    simp only [htx] at h
    split at h
    · simp at h
    · cases hta : tx.toAddr with
      | none => simp [hta] at h
      | some router =>
        simp only [hta] at h
        exact cycleApproveSwap_mainQuoteReq env c sts _ router q h

/-- A quote request recorded by the swap-quote phase fixes the swap-target
symbol to the opposite of the candidate's. -/
theorem cycleSwapQuotePhase_mainQuoteReq (env : CycleEnv) (c : Candidate)
    (q : BridgeQuoteParams) :
    (cycleSwapQuotePhase env c).mainQuoteReq = some q →
    ∃ a ot, q = cycleBridgeParams env c ((TARGET_TOKENS c.symbol).getD "undefined") a ot := by
  intro h
  unfold cycleSwapQuotePhase at h
  cases hs : env.swapApi with
  | none => simp [hs] at h
  | some raw =>
    simp only [hs] at h
    exact cycleWithQuote_mainQuoteReq env c _ _ q h

/-- A quote request recorded by the gas phase comes from the swap-quote
phase. -/
theorem cycleGasPhase_mainQuoteReq (env : CycleEnv) (c : Candidate)
    (q : BridgeQuoteParams) :
    (cycleGasPhase env c).mainQuoteReq = some q →
    ∃ a ot, q = cycleBridgeParams env c ((TARGET_TOKENS c.symbol).getD "undefined") a ot := by
  intro h
  unfold cycleGasPhase at h
  split at h
  · simp at h
  · split at h
    · dsimp only at h
      split at h
      · split at h
        · rw [withRescue_mainQuoteReq] at h
          exact cycleSwapQuotePhase_mainQuoteReq env c q h
        · simp at h
      · simp at h
    · exact cycleSwapQuotePhase_mainQuoteReq env c q h

/-- The cycle records a main-path quote request only after a successful
selection, and its parameters are those of the post-swap stage for the
selected candidate. -/
theorem cycle_mainQuoteReq_chase (env : CycleEnv) (q : BridgeQuoteParams) :
    (executeBridgeCycle env).mainQuoteReq = some q →
    ∃ c a ot, findBestTokenToBridge env.balances = .ok c ∧
      q = cycleBridgeParams env c ((TARGET_TOKENS c.symbol).getD "undefined") a ot := by
  intro h
  unfold executeBridgeCycle at h
  cases hsel : findBestTokenToBridge env.balances with
  | error e => simp [hsel] at h
  | ok c =>
    simp only [hsel] at h
    split at h
    · obtain ⟨a, ot, hq⟩ := cycleGasPhase_mainQuoteReq env c q h
      exact ⟨c, a, ot, rfl, hq⟩
    · simp at h

/-- A base candidate found for a symbol carries that symbol. -/
theorem findTokenBalanceOnChains_symbol (bal : Snapshot) (s : String)
    (cand : BaseCandidate) :
    findTokenBalanceOnChains bal s = .ok (some cand) → cand.symbol = s := by
  intro h
  unfold findTokenBalanceOnChains at h
  cases hf : bal.foldl (selectionStep s) none with
  | none => simp [hf] at h
  | some b =>
    simp only [hf] at h
    cases hn : chainNameOf b.chainId with
    | none => simp [hn] at h
    | some nm =>
      simp only [hn, Except.ok.injEq, Option.some.injEq] at h
      rw [← h]

/-- The script-level selector only produces the two WETH/USDC pairings. -/
theorem findBest_symbol (bal : Snapshot) (c : Candidate) :
    findBestTokenToBridge bal = .ok c →
    (c.symbol = "WETH" ∧ c.targetSymbol = "USDC") ∨
    (c.symbol = "USDC" ∧ c.targetSymbol = "WETH") := by
  intro h
  unfold findBestTokenToBridge at h
  cases hw : findTokenBalanceOnChains bal "WETH" with
  | error e => rw [hw] at h; simp [Bind.bind, Except.bind] at h
  | ok w =>
    rw [hw] at h
    cases w with
    | some cw =>
      simp only [Bind.bind, Except.bind, Except.ok.injEq] at h
      left
      rw [← h]
      exact ⟨findTokenBalanceOnChains_symbol bal "WETH" cw hw, rfl⟩
    | none =>
      simp only [Bind.bind, Except.bind] at h
      cases hu : findTokenBalanceOnChains bal "USDC" with
      | error e => rw [hu] at h; simp at h
      | ok u =>
        rw [hu] at h
        cases u with
        | some cu =>
          simp only [Except.ok.injEq] at h
          right
          rw [← h]
          exact ⟨findTokenBalanceOnChains_symbol bal "USDC" cu hu, rfl⟩
        | none => simp at h

end RelayBot

namespace RelayBot

/-! ## Claim C3 -/

/-- C3: composing `TARGET_TOKENS` twice is the identity on WETH/USDC, and
in every cycle run that records a bridge-quote request, the bridged symbol
is the opposite of the selected candidate's symbol while the destination
target symbol equals the candidate's symbol again. -/
theorem target_token_round_trip :
    (∀ s, s = "WETH" ∨ s = "USDC" → (TARGET_TOKENS s).bind TARGET_TOKENS = some s)
    ∧ (∀ env q, (executeBridgeCycle env).mainQuoteReq = some q →
        ∃ c, findBestTokenToBridge env.balances = .ok c ∧
          ((c.symbol = "WETH" ∧ q.symbol = "USDC") ∨
           (c.symbol = "USDC" ∧ q.symbol = "WETH")) ∧
          q.targetSymbol = some c.symbol) := by
  constructor
  · rintro s (rfl | rfl) <;> rfl
  · intro env q h
    obtain ⟨c, a, ot, hsel, rfl⟩ := cycle_mainQuoteReq_chase env q h
    rcases findBest_symbol env.balances c hsel with ⟨hs, _⟩ | ⟨hs, _⟩
    · refine ⟨c, hsel, Or.inl ⟨hs, ?_⟩, ?_⟩
      · simp only [cycleBridgeParams]
        rw [hs]; rfl
      · simp only [cycleBridgeParams]
        rw [hs]; rfl
    · refine ⟨c, hsel, Or.inr ⟨hs, ?_⟩, ?_⟩
      · simp only [cycleBridgeParams]
        rw [hs]; rfl
      · simp only [cycleBridgeParams]
        rw [hs]; rfl

/-- C3 witness: the concrete happy-path run selects WETH, bridges USDC and
targets WETH again on the destination chain. -/
theorem target_token_round_trip_witness :
    ((TARGET_TOKENS "WETH").bind TARGET_TOKENS = some "WETH") ∧
    (∃ c, findBestTokenToBridge (sampleCycleEnv happySnapshot).balances = .ok c ∧
      ((c.symbol = "WETH" ∧ happyParams.symbol = "USDC") ∨
       (c.symbol = "USDC" ∧ happyParams.symbol = "WETH")) ∧
      happyParams.targetSymbol = some c.symbol) :=
  ⟨target_token_round_trip.1 "WETH" (Or.inl rfl),
   target_token_round_trip.2 (sampleCycleEnv happySnapshot) happyParams rfl⟩

/-! ## Claim C8 -/

/-- C8: when the swap reports the zero address as the output token, the
recorded bridge-quote request carries the registry address of the
originally requested destination token on the source chain (and that
token's symbol); every recorded main-path request comes from the post-swap
stage for the selected candidate; and the registry never resolves a
supported chain's WETH/USDC to the zero address. -/
theorem zero_address_substitution :
    (∀ env c sts a (ot : SwapOutToken) q, ot.address = zeroAddress →
      (cyclePostSwap env c sts a ot).mainQuoteReq = some q →
      q.tokenAddress = (tokenAddressOf c.sourceChainId sts).getD "undefined" ∧
      q.symbol = sts)
    ∧ (∀ env q, (executeBridgeCycle env).mainQuoteReq = some q →
        ∃ c a ot, findBestTokenToBridge env.balances = .ok c ∧
          (cyclePostSwap env c ((TARGET_TOKENS c.symbol).getD "undefined") a ot).mainQuoteReq
            = some q)
    ∧ (∀ cid ∈ chainIdsList,
        (tokenAddressOf cid "WETH").getD "undefined" ≠ zeroAddress ∧
        (tokenAddressOf cid "USDC").getD "undefined" ≠ zeroAddress) := by
  refine ⟨?_, ?_, ?_⟩
  · intro env c sts a ot q hzero h
    rw [cyclePostSwap_mainQuoteReq] at h
    obtain rfl := (Option.some_injective _ h).symm
    constructor
    · simp [cycleBridgeParams, substituteZeroAddress, hzero]
    · rfl
  · intro env q h
    obtain ⟨c, a, ot, hsel, hq⟩ := cycle_mainQuoteReq_chase env q h
    exact ⟨c, a, ot, hsel, by rw [cyclePostSwap_mainQuoteReq, hq]⟩
  · decide

/-- C8 witness: a swap that reports the zero address leads to a bridge
request for the registry's USDC address on Base and symbol USDC. -/
theorem zero_address_substitution_witness :
    happyParams.tokenAddress = (tokenAddressOf 8453 "USDC").getD "undefined" ∧
    happyParams.symbol = "USDC" :=
  zero_address_substitution.1 (sampleCycleEnv happySnapshot) happyCand "USDC"
    1000000 { address := zeroAddress, symbol := "Unknown", decimals := 18 }
    happyParams rfl rfl

end RelayBot

namespace RelayBot

/-! ## Gas gates guard every write (claim C5 machinery) -/

/-- A price above the ceiling is rejected by the guard. -/
theorem checkGasPrice_high (p : Nat) (h : MAX_GAS_PRICE_WEI < p) :
    (checkGasPrice (some p)).isAcceptable = false := by
  show decide (p ≤ MAX_GAS_PRICE_WEI) = false
  exact decide_eq_false (Nat.not_le.mpr h)

/-- `executeSwap` aborts before submitting anything when its fresh gas
price exceeds the ceiling. -/
theorem executeSwap_gas_high (senv : SwapEnv) (q : RawSwapQuote) (gl : Option Nat)
    (p : Nat) (hq : senv.gasQ = some p) (hp : MAX_GAS_PRICE_WEI < p) :
    executeSwap senv q gl = (.highGas, false) := by
  unfold executeSwap
  rw [hq, checkGasPrice_high p hp]
  rfl

/-- A submitted swap implies its gas gate reported acceptable. -/
theorem executeSwap_submitted_gate (senv : SwapEnv) (q : RawSwapQuote)
    (gl : Option Nat) (h : (executeSwap senv q gl).2 = true) :
    (checkGasPrice senv.gasQ).isAcceptable = true := by
  unfold executeSwap at h
  split at h
  · simp at h
  · next hc => simpa using hc

/-- `prependTxs` concatenates write lists. -/
theorem prependTxs_txs (r : CycleResult) (l : List Tx) :
    (r.prependTxs l).txs = l ++ r.txs := rfl

/-- `withRescue` concatenates write lists. -/
theorem withRescue_txs (r : CycleResult) (res : RescueResult) :
    (r.withRescue res).txs = res.txs ++ r.txs := rfl

/-- The insufficient-funds catch leaves the write list unchanged. -/
theorem innerCatch_txs (r : CycleResult) : (innerCatch r).txs = r.txs := by
  rcases r with ⟨o, t, m, rq⟩
  cases o with
  | error e =>
    unfold innerCatch
    dsimp only
    split <;> rfl
  | ok u => rfl

/-- Every write of a gas rescue sits behind the rescue's gas gates: the
wrap needs gates A and B, the bridge submission also gate C. -/
theorem bridgeETHForGas_txs_mem (renv : RescueEnv) (tc : Nat) (t : Tx)
    (h : t ∈ (bridgeETHForGas renv tc).txs) :
    (checkGasPrice renv.gasQA).isAcceptable = true ∧
    (checkGasPrice renv.gasQB).isAcceptable = true ∧
    (t = Tx.rescueWrap ∨ ∃ cid, t = Tx.rescueBridgeExec cid ∧
      (checkGasPrice renv.gasQC).isAcceptable = true) := by
  unfold bridgeETHForGas at h
  split at h
  · simp at h
  next hA =>
  split at h
  · simp at h
  split at h
  · simp at h
  split at h
  · simp at h
  next hB =>
  split at h
  · simp at h
  next wrapOk heqw =>
  split at h
  · refine ⟨by simpa using hA, by simpa using hB, Or.inl ?_⟩
    simpa using h
  · try dsimp only at h
    split at h
    · exact ⟨by simpa using hA, by simpa using hB, Or.inl (by simpa using h)⟩
    next quote heqq =>
    split at h
    · exact ⟨by simpa using hA, by simpa using hB, Or.inl (by simpa using h)⟩
    next hC =>
    refine ⟨by simpa using hA, by simpa using hB, ?_⟩
    have hfin : t ∈ Tx.rescueWrap ::
        (executeBridgeTransaction renv.bridgeSend quote).2.map Tx.rescueBridgeExec := by
      rcases hrs : (executeBridgeTransaction renv.bridgeSend quote).1 with e | r
      · simpa [hrs] using h
      · rcases hs1 : renv.status1 with e | s1
        · simpa [hrs, hs1] using h
        · rcases hs2 : renv.status2 with e | s2
          · simpa [hrs, hs1, hs2] using h
          · simpa [hrs, hs1, hs2] using h
    rcases List.mem_cons.mp hfin with rfl | hm
    · exact Or.inl rfl
    · obtain ⟨cid, _, rfl⟩ := List.mem_map.mp hm
      exact Or.inr ⟨cid, rfl, by simpa using hC⟩

/-- Every write of the bridge-execution stage is either inherited or a
bridge execution behind gate 5. -/
theorem cycleBridgeExec_txs_mem (env : CycleEnv) (params : BridgeQuoteParams)
    (quote : BridgeQuoteResp) (acc : List Tx) (t : Tx)
    (h : t ∈ (cycleBridgeExec env params quote acc).txs) :
    t ∈ acc ∨ ∃ cid, t = Tx.bridgeExec cid ∧
      (checkGasPrice env.gasQ5).isAcceptable = true := by
  unfold cycleBridgeExec at h
  split at h
  · exact Or.inl h
  next h5 =>
  try dsimp only at h
  have hfin : t ∈ acc ++ (executeBridgeTransaction env.bridgeSend quote).2.map Tx.bridgeExec := by
    rcases hrs : (executeBridgeTransaction env.bridgeSend quote).1 with e | r
    · simpa [hrs] using h
    · rcases hst : env.statusApi with e | st
      · simpa [hrs, hst] using h
      · simpa [hrs, hst] using h
  rcases List.mem_append.mp hfin with hl | hm
  · exact Or.inl hl
  · obtain ⟨cid, _, rfl⟩ := List.mem_map.mp hm
    exact Or.inr ⟨cid, rfl, by simpa using h5⟩

/-- Every write of the post-swap stage is a bridge approval behind gate 4
or a bridge execution behind gate 5. -/
theorem cyclePostSwap_txs_mem (env : CycleEnv) (c : Candidate) (sts : String)
    (a : Nat) (ot : SwapOutToken) (t : Tx)
    (h : t ∈ (cyclePostSwap env c sts a ot).txs) :
    (∃ x y, t = Tx.bridgeApprove x y ∧
      (checkGasPrice env.gasQ4).isAcceptable = true) ∨
    (∃ cid, t = Tx.bridgeExec cid ∧
      (checkGasPrice env.gasQ5).isAcceptable = true) := by
  unfold cyclePostSwap at h
  rcases hq : env.quoteApi with e | quote <;> simp only [hq] at h
  · simp at h
  · rcases hf : quote.steps.find? (fun s => s.id = "deposit") with _ | dstep <;>
      simp only [hf] at h
    · simp at h
    · rcases hh : dstep.items.head? with _ | item <;> simp only [hh] at h
      · simp at h
      · split at h
        · split at h
          · simp at h
          next h4 =>
          try dsimp only at h
          split at h
          · by_cases hap : (approveToken env.approve2).2 = true
            · simp only [hap, if_true] at h
              rcases List.mem_singleton.mp h with rfl
              exact Or.inl ⟨_, _, rfl, by simpa using h4⟩
            · simp [hap] at h
          · rcases cycleBridgeExec_txs_mem env _ quote _ t h with hacc | hex
            · by_cases hap : (approveToken env.approve2).2 = true
              · simp only [hap, if_true] at hacc
                rcases List.mem_singleton.mp hacc with rfl
                exact Or.inl ⟨_, _, rfl, by simpa using h4⟩
              · simp [hap] at hacc
            · exact Or.inr hex
        · rcases cycleBridgeExec_txs_mem env _ quote _ t h with hacc | hex
          · simp at hacc
          · exact Or.inr hex

/-- Every write of the inner try is the swap execution behind gate 3 or a
post-swap write behind gates 4/5. -/
theorem cycleInnerTry_txs_mem (env : CycleEnv) (c : Candidate) (sts : String)
    (swq : RawSwapQuote) (t : Tx)
    (h : t ∈ (cycleInnerTry env c sts swq).txs) :
    (t = Tx.swapExec ∧ (checkGasPrice env.gasQ3).isAcceptable = true) ∨
    (∃ x y, t = Tx.bridgeApprove x y ∧
      (checkGasPrice env.gasQ4).isAcceptable = true) ∨
    (∃ cid, t = Tx.bridgeExec cid ∧
      (checkGasPrice env.gasQ5).isAcceptable = true) := by
  unfold cycleInnerTry at h
  rcases he : env.estimate with e | ge <;> simp only [he] at h
  · simp at h
  · split at h
    · simp at h
    · try dsimp only at h
      have hgate : (executeSwap ⟨env.gasQ3, Except.ok ge, env.swapSend⟩ swq
          (some (ge * 120 / 100))).2 = true →
          (checkGasPrice env.gasQ3).isAcceptable = true :=
        fun hs2 => executeSwap_submitted_gate _ swq _ hs2
      rcases hsr : (executeSwap ⟨env.gasQ3, Except.ok ge, env.swapSend⟩ swq
          (some (ge * 120 / 100))).1 with _ | _ | ⟨a, ot⟩ <;>
        simp only [hsr] at h
      · by_cases hs2 : (executeSwap ⟨env.gasQ3, Except.ok ge, env.swapSend⟩ swq
            (some (ge * 120 / 100))).2 = true
        · simp only [hs2, if_true] at h
          rcases List.mem_singleton.mp h with rfl
          exact Or.inl ⟨rfl, hgate hs2⟩
        · simp [hs2] at h
      · by_cases hs2 : (executeSwap ⟨env.gasQ3, Except.ok ge, env.swapSend⟩ swq
            (some (ge * 120 / 100))).2 = true
        · simp only [hs2, if_true] at h
          rcases List.mem_singleton.mp h with rfl
          exact Or.inl ⟨rfl, hgate hs2⟩
        · simp [hs2] at h
      · rw [prependTxs_txs] at h
        rcases List.mem_append.mp h with hl | hm
        · by_cases hs2 : (executeSwap ⟨env.gasQ3, Except.ok ge, env.swapSend⟩ swq
              (some (ge * 120 / 100))).2 = true
          · simp only [hs2, if_true] at hl
            rcases List.mem_singleton.mp hl with rfl
            exact Or.inl ⟨rfl, hgate hs2⟩
          · simp [hs2] at hl
        · exact Or.inr (cyclePostSwap_txs_mem env c sts a ot t hm)

/-- Every write of the approve-and-swap stage sits behind gate 2, and is a
swap approval, the swap itself behind gate 3, or a bridge write behind
gates 4/5. -/
theorem cycleApproveSwap_txs_mem (env : CycleEnv) (c : Candidate) (sts : String)
    (swq : RawSwapQuote) (router : String) (t : Tx)
    (h : t ∈ (cycleApproveSwap env c sts swq router).txs) :
    (checkGasPrice env.gasQ2).isAcceptable = true ∧
    ((∃ x y, t = Tx.swapApprove x y) ∨
     (t = Tx.swapExec ∧ (checkGasPrice env.gasQ3).isAcceptable = true) ∨
     (∃ x y, t = Tx.bridgeApprove x y ∧
       (checkGasPrice env.gasQ4).isAcceptable = true) ∨
     (∃ cid, t = Tx.bridgeExec cid ∧
       (checkGasPrice env.gasQ5).isAcceptable = true)) := by
  unfold cycleApproveSwap at h
  split at h
  · simp at h
  next h2 =>
  refine ⟨by simpa using h2, ?_⟩
  dsimp only at h
  split at h
  · by_cases hap : (approveToken env.approve1).2 = true
    · simp only [hap, if_true] at h
      rcases List.mem_singleton.mp h with rfl
      exact Or.inl ⟨_, _, rfl⟩
    · simp [hap] at h
  · rw [prependTxs_txs, innerCatch_txs] at h
    rcases List.mem_append.mp h with hl | hm
    · by_cases hap : (approveToken env.approve1).2 = true
      · simp only [hap, if_true] at hl
        rcases List.mem_singleton.mp hl with rfl
        exact Or.inl ⟨_, _, rfl⟩
      · simp [hap] at hl
    · exact Or.inr (cycleInnerTry_txs_mem env c sts swq t hm)

/-- Lifting the approve-and-swap classification through quote
validation. -/
theorem cycleWithQuote_txs_mem (env : CycleEnv) (c : Candidate) (sts : String)
    (raw : RawSwapQuote) (t : Tx)
    (h : t ∈ (cycleWithQuote env c sts raw).txs) :
    (checkGasPrice env.gasQ2).isAcceptable = true ∧
    ((∃ x y, t = Tx.swapApprove x y) ∨
     (t = Tx.swapExec ∧ (checkGasPrice env.gasQ3).isAcceptable = true) ∨
     (∃ x y, t = Tx.bridgeApprove x y ∧
       (checkGasPrice env.gasQ4).isAcceptable = true) ∨
     (∃ cid, t = Tx.bridgeExec cid ∧
       (checkGasPrice env.gasQ5).isAcceptable = true)) := by
  unfold cycleWithQuote at h
  rcases htx : raw.tx with _ | tx <;> simp only [htx] at h
  · simp at h
  · split at h
    · simp at h
    · rcases hta : tx.toAddr with _ | router <;> simp only [hta] at h
      · simp at h
      · exact cycleApproveSwap_txs_mem env c sts _ router t h

/-- Lifting the classification through the swap-quote phase. -/
theorem cycleSwapQuotePhase_txs_mem (env : CycleEnv) (c : Candidate) (t : Tx)
    (h : t ∈ (cycleSwapQuotePhase env c).txs) :
    (checkGasPrice env.gasQ2).isAcceptable = true ∧
    ((∃ x y, t = Tx.swapApprove x y) ∨
     (t = Tx.swapExec ∧ (checkGasPrice env.gasQ3).isAcceptable = true) ∨
     (∃ x y, t = Tx.bridgeApprove x y ∧
       (checkGasPrice env.gasQ4).isAcceptable = true) ∨
     (∃ cid, t = Tx.bridgeExec cid ∧
       (checkGasPrice env.gasQ5).isAcceptable = true)) := by
  unfold cycleSwapQuotePhase at h
  rcases hs : env.swapApi with _ | raw <;> simp only [hs] at h
  · simp at h
  · exact cycleWithQuote_txs_mem env c _ _ t h

/-- Every write of the gas phase sits behind gate 1, and is a rescue write
or a main-path write behind its own gate. -/
theorem cycleGasPhase_txs_mem (env : CycleEnv) (c : Candidate) (t : Tx)
    (h : t ∈ (cycleGasPhase env c).txs) :
    (checkGasPrice env.gasQ1).isAcceptable = true ∧
    (t ∈ (bridgeETHForGas env.rescue c.sourceChainId).txs ∨
     ((checkGasPrice env.gasQ2).isAcceptable = true ∧
      ((∃ x y, t = Tx.swapApprove x y) ∨
       (t = Tx.swapExec ∧ (checkGasPrice env.gasQ3).isAcceptable = true) ∨
       (∃ x y, t = Tx.bridgeApprove x y ∧
         (checkGasPrice env.gasQ4).isAcceptable = true) ∨
       (∃ cid, t = Tx.bridgeExec cid ∧
         (checkGasPrice env.gasQ5).isAcceptable = true)))) := by
  unfold cycleGasPhase at h
  split at h
  · simp at h
  next h1 =>
  refine ⟨by simpa using h1, ?_⟩
  split at h
  · dsimp only at h
    split at h
    · split at h
      · rw [withRescue_txs] at h
        rcases List.mem_append.mp h with hr | hm
        · exact Or.inl hr
        · exact Or.inr (cycleSwapQuotePhase_txs_mem env c t hm)
      · exact Or.inl h
    · exact Or.inl h
  · exact Or.inr (cycleSwapQuotePhase_txs_mem env c t h)

end RelayBot

namespace RelayBot

/-! ## Claim C5 -/

/-- C5: every on-chain write sits behind a fresh gas-price check against
the 0.1 gwei ceiling. A price above the ceiling makes `executeSwap` abort
with no submission; every rescue write implies its guarding gates reported
acceptable (wrap: gates A and B; rescue bridge: also gate C); and every
write of a full cycle implies gate 1 reported acceptable and, unless it
came from the nested rescue, gate 2 as well, plus the gate at its own
submission site (swap: gate 3; bridge approval: gate 4; bridge execution:
gate 5). Contrapositively, a too-high (or failed) fresh price at any gate
means the corresponding write is never submitted. -/
theorem gas_ceiling_guards_all_writes :
    (∀ (senv : SwapEnv) (q : RawSwapQuote) (gl : Option Nat) (p : Nat),
      senv.gasQ = some p → MAX_GAS_PRICE_WEI < p →
      executeSwap senv q gl = (.highGas, false))
    ∧ (∀ (renv : RescueEnv) (tc : Nat) (t : Tx),
        t ∈ (bridgeETHForGas renv tc).txs →
        (checkGasPrice renv.gasQA).isAcceptable = true ∧
        (checkGasPrice renv.gasQB).isAcceptable = true ∧
        (t = Tx.rescueWrap ∨ ∃ cid, t = Tx.rescueBridgeExec cid ∧
          (checkGasPrice renv.gasQC).isAcceptable = true))
    ∧ (∀ (env : CycleEnv) (t : Tx), t ∈ (executeBridgeCycle env).txs →
        (checkGasPrice env.gasQ1).isAcceptable = true ∧
        ((∃ src, t ∈ (bridgeETHForGas env.rescue src).txs) ∨
         ((checkGasPrice env.gasQ2).isAcceptable = true ∧
          ((∃ x y, t = Tx.swapApprove x y) ∨
           (t = Tx.swapExec ∧ (checkGasPrice env.gasQ3).isAcceptable = true) ∨
           (∃ x y, t = Tx.bridgeApprove x y ∧
             (checkGasPrice env.gasQ4).isAcceptable = true) ∨
           (∃ cid, t = Tx.bridgeExec cid ∧
             (checkGasPrice env.gasQ5).isAcceptable = true))))) := by
  refine ⟨executeSwap_gas_high, bridgeETHForGas_txs_mem, ?_⟩
  intro env t h
  unfold executeBridgeCycle at h
  cases hsel : findBestTokenToBridge env.balances with
  | error e => simp [hsel] at h
  | ok c =>
    simp only [hsel] at h
    split at h
    · obtain ⟨h1, hrest⟩ := cycleGasPhase_txs_mem env c t h
      refine ⟨h1, ?_⟩
      rcases hrest with hr | hmain
      · exact Or.inl ⟨c.sourceChainId, hr⟩
      · exact Or.inr hmain
    · simp at h

/-- C5 witness: at a freshly fetched price of 0.2 gwei (2e8 wei, above the
1e8 ceiling) the swap wrapper aborts without submitting. -/
theorem gas_ceiling_guards_all_writes_witness :
    MAX_GAS_PRICE_WEI < 200000000 ∧
    executeSwap { gasQ := some 200000000, estimate := .ok 100000, send := some true }
      happyQuote none = (.highGas, false) :=
  ⟨by decide,
    gas_ceiling_guards_all_writes.1
      { gasQ := some 200000000, estimate := .ok 100000, send := some true }
      happyQuote none 200000000 rfl (by decide)⟩

/-! ## Claim C9 -/

/-- The snapshot entry for a chain/symbol pair depends only on that pair's
own oracle read: supported chain and tracked symbol yield the read's entry,
anything else is absent. -/
theorem snapshotEntry_depends (o : ReadOracle) (c : Nat) (s : String) :
    snapshotEntry o c s =
      if c = 8453 ∨ c = 42161 ∨ c = 10 ∨ c = 59144 then
        ((tokenAddressEntries c).lookup s).map (fun addr => mkTokenEntry addr (o c s))
      else none := by
  by_cases h1 : c = 8453
  · subst h1
    by_cases hu : s = "USDC"
    · subst hu; rfl
    · by_cases hw : s = "WETH"
      · subst hw; rfl
      · have hu2 : (s == "USDC") = false := by simp [hu]
        have hw2 : (s == "WETH") = false := by simp [hw]
        simp [snapshotEntry, checkTokenBalancesAcrossChains, chainIdsEntries,
          tokenAddressEntries, ChainData.get, List.lookup, hu2, hw2]
  · by_cases h2 : c = 42161
    · subst h2
      by_cases hu : s = "USDC"
      · subst hu; rfl
      · by_cases hw : s = "WETH"
        · subst hw; rfl
        · have hu2 : (s == "USDC") = false := by simp [hu]
          have hw2 : (s == "WETH") = false := by simp [hw]
          simp [snapshotEntry, checkTokenBalancesAcrossChains, chainIdsEntries,
            tokenAddressEntries, ChainData.get, List.lookup, hu2, hw2]
    · by_cases h3 : c = 10
      · subst h3
        by_cases hu : s = "USDC"
        · subst hu; rfl
        · by_cases hw : s = "WETH"
          · subst hw; rfl
          · have hu2 : (s == "USDC") = false := by simp [hu]
            have hw2 : (s == "WETH") = false := by simp [hw]
            simp [snapshotEntry, checkTokenBalancesAcrossChains, chainIdsEntries,
              tokenAddressEntries, ChainData.get, List.lookup, hu2, hw2]
      · by_cases h4 : c = 59144
        · subst h4
          by_cases hu : s = "USDC"
          · subst hu; rfl
          · by_cases hw : s = "WETH"
            · subst hw; rfl
            · have hu2 : (s == "USDC") = false := by simp [hu]
              have hw2 : (s == "WETH") = false := by simp [hw]
              simp [snapshotEntry, checkTokenBalancesAcrossChains, chainIdsEntries,
                tokenAddressEntries, ChainData.get, List.lookup, hu2, hw2]
        · have e1 : (c == 8453) = false := by simp [h1]
          have e2 : (c == 42161) = false := by simp [h2]
          have e3 : (c == 10) = false := by simp [h3]
          have e4 : (c == 59144) = false := by simp [h4]
          simp [snapshotEntry, checkTokenBalancesAcrossChains, chainIdsEntries,
            List.lookup, e1, e2, e3, e4, h1, h2, h3, h4]

/-- C9: the balance reader lists every supported chain as a key whatever
the reads do; entries for distinct chain/symbol pairs are isolated — 
changing one read changes no other entry; and a failed read is recorded as
an error entry on exactly that token. -/
theorem snapshot_partial_failure_isolation :
    (∀ oracle : ReadOracle,
      (checkTokenBalancesAcrossChains oracle).map (fun p => p.1) = chainIdsList)
    ∧ (∀ (o1 o2 : ReadOracle) (c0 : Nat) (s0 : String),
        (∀ c s, ¬(c = c0 ∧ s = s0) → o1 c s = o2 c s) →
        ∀ c s, ¬(c = c0 ∧ s = s0) →
          snapshotEntry o1 c s = snapshotEntry o2 c s)
    ∧ (∀ (oracle : ReadOracle) (c : Nat) (s e : String),
        c ∈ chainIdsList → s ∈ (tokenAddressEntries c).map (fun p => p.1) →
        oracle c s = .error e → snapshotEntry oracle c s = some (.err e)) := by
  refine ⟨fun _ => rfl, ?_, ?_⟩
  · intro o1 o2 c0 s0 hagree c s hne
    rw [snapshotEntry_depends, snapshotEntry_depends, hagree c s hne]
  · intro oracle c s e hc hs he
    simp only [chainIdsList, chainIdsEntries, List.map_cons, List.map_nil,
      List.mem_cons, List.not_mem_nil, or_false] at hc
    rcases hc with rfl | rfl | rfl | rfl <;>
      · simp [tokenAddressEntries] at hs
        rcases hs with rfl | rfl <;>
          simp [snapshotEntry_depends, he, tokenAddressEntries, List.lookup,
            mkTokenEntry]

/-- C9 witness: with one read of WETH on Base failing, the Arbitrum WETH
entry is unchanged and the Base WETH entry records exactly the error. -/
theorem snapshot_partial_failure_isolation_witness :
    snapshotEntry zeroOracle 42161 "WETH" =
      snapshotEntry
        (fun c s => if c = 8453 ∧ s = "WETH" then .error "read failed"
                    else zeroOracle c s) 42161 "WETH" ∧
    snapshotEntry
      (fun c s => if c = 8453 ∧ s = "WETH" then .error "read failed"
                  else zeroOracle c s) 8453 "WETH" = some (.err "read failed") :=
  ⟨snapshot_partial_failure_isolation.2.1 zeroOracle
      (fun c s => if c = 8453 ∧ s = "WETH" then .error "read failed"
                  else zeroOracle c s) 8453 "WETH"
      (fun c s h => (if_neg h).symm) 42161 "WETH" (by decide),
   snapshot_partial_failure_isolation.2.2
      (fun c s => if c = 8453 ∧ s = "WETH" then .error "read failed"
                  else zeroOracle c s) 8453 "WETH" "read failed"
      (by decide) (by decide) (by simp)⟩

/-! ## Claim C10 -/

/-- C10: a failed gas-price query makes `checkGasPrice` return
`isAcceptable = false` with a zero price instead of raising, and every
gated caller treats that exactly like a too-high price: the swap wrapper
aborts with no submission, a cycle whose first gate query fails submits
nothing and requests no quote, and a rescue whose gate-A query fails
reports failure with no writes. -/
theorem gas_check_fail_closed :
    checkGasPrice none = { isAcceptable := false, gasPrice := 0 }
    ∧ (∀ (senv : SwapEnv) (q : RawSwapQuote) (gl : Option Nat),
        senv.gasQ = none → executeSwap senv q gl = (.highGas, false))
    ∧ (∀ env : CycleEnv, env.gasQ1 = none →
        (executeBridgeCycle env).txs = [] ∧
        (executeBridgeCycle env).mainQuoteReq = none ∧
        (executeBridgeCycle env).rescueQuoteReq = none)
    ∧ (∀ (renv : RescueEnv) (tc : Nat), renv.gasQA = none →
        bridgeETHForGas renv tc =
          { success := false, txs := [], quoteReq := none }) := by
  refine ⟨rfl, ?_, ?_, ?_⟩
  · intro senv q gl hq
    unfold executeSwap
    rw [hq]
    rfl
  · intro env h1
    unfold executeBridgeCycle
    cases hsel : findBestTokenToBridge env.balances with
    | error e => exact ⟨rfl, rfl, rfl⟩
    | ok c =>
      simp only
      split
      · unfold cycleGasPhase
        rw [h1]
        exact ⟨rfl, rfl, rfl⟩
      · exact ⟨rfl, rfl, rfl⟩
  · intro renv tc hA
    unfold bridgeETHForGas
    rw [hA]
    rfl

/-- C10 witness: a failed price read aborts the swap wrapper and the gas
rescue at concrete inputs. -/
theorem gas_check_fail_closed_witness :
    executeSwap { gasQ := none, estimate := .ok 1, send := some true }
      happyQuote none = (.highGas, false) ∧
    bridgeETHForGas { sampleRescueEnv with gasQA := none } 10 =
      { success := false, txs := [], quoteReq := none } :=
  ⟨gas_check_fail_closed.2.1 { gasQ := none, estimate := .ok 1, send := some true }
      happyQuote none rfl,
   gas_check_fail_closed.2.2.2 { sampleRescueEnv with gasQA := none } 10 rfl⟩

end RelayBot
